import Mathlib

/-!
Verification of the reference-resolution and normalization engine of the
AI-Study-Bible repository against its specification.

The TypeScript sources are shallowly embedded here over `Str := List Char`.
Every definition is translated from the source files (the bibleService
embedded in `src/src/hooks/useHighlights.ts`, `src/services/bibleService.ts`,
`src/src/App.tsx`, `src/src/services/geminiService.ts`, and the component in
`src/unnamed/part_005`).  JavaScript regular expressions are translated into
specialized matching functions that implement the exact greedy/lazy
backtracking behaviour of each concrete pattern.  `String.prototype.toLowerCase`
is modelled on the ASCII range (all table keys are ASCII or Telugu, where the
two agree).  Data files that are not part of the sources
(`bibleMetaWithVerseCounts.ts`, `teluguBookNames.ts`,
`teluguToEnglishBookMap.ts`) are modelled from the specification and marked as
such.
-/

/-- Strings are modelled as lists of characters (JS strings are sequences of
code units; all data here stays inside the BMP where the two views agree). -/
abbrev Str := List Char

/-- Convert a Lean string literal to the embedded string type. -/
def str (s : String) : Str := s.data

/-- The straight apostrophe character U+0027. -/
def apos : Char := Char.ofNat 39

/-- The backquote character U+0060. -/
def bq : Char := Char.ofNat 96

/-- Left curly brace U+007B. -/
def lbr : Char := Char.ofNat 123

/-- Right curly brace U+007D. -/
def rbr : Char := Char.ofNat 125

/-- The character class `\s` of JavaScript regular expressions (also the set
trimmed by `String.prototype.trim`). -/
def isJsSpace (c : Char) : Bool :=
  c.toNat = 0x20 || c.toNat = 0x9 || c.toNat = 0xA || c.toNat = 0xD ||
  c.toNat = 0xB || c.toNat = 0xC ||
  c.toNat = 0xA0 || c.toNat = 0x1680 || (0x2000 ≤ c.toNat && c.toNat ≤ 0x200A) ||
  c.toNat = 0x2028 || c.toNat = 0x2029 || c.toNat = 0x202F || c.toNat = 0x205F ||
  c.toNat = 0x3000 || c.toNat = 0xFEFF

/-- JavaScript line terminators (the characters `.` does not match). -/
def isLineTerm (c : Char) : Bool :=
  c = '\n' || c = '\r' || c.toNat = 0x2028 || c.toNat = 0x2029

/-- ASCII decimal digit, the class `\d` of JavaScript regular expressions. -/
def isAsciiDigit (c : Char) : Bool := '0' ≤ c && c ≤ '9'

/-- The character class `[1-3]`. -/
def digit13 (c : Char) : Bool := c = '1' || c = '2' || c = '3'

/-- `String.prototype.trim`. -/
def jsTrim (s : Str) : Str :=
  ((s.dropWhile isJsSpace).reverse.dropWhile isJsSpace).reverse

/-- Helper for `collapseWS`: `prevWS` records whether the previous character
belonged to a whitespace run that has already emitted its single space. -/
def collapseWSAux (prevWS : Bool) : Str → Str
  | [] => []
  | c :: cs =>
    if isJsSpace c then
      if prevWS then collapseWSAux true cs else ' ' :: collapseWSAux true cs
    else c :: collapseWSAux false cs

/-- `s.replace(/\s+/g, ' ')`: every whitespace run becomes a single space. -/
def collapseWS (s : Str) : Str := collapseWSAux false s

/-- ASCII lowercasing of a character; model of the effect of
`String.prototype.toLowerCase` on the characters appearing in the tables
(ASCII letters and Telugu, on which JS lowercasing is the identity). -/
def lowerCh (c : Char) : Char :=
  if 'A' ≤ c && c ≤ 'Z' then Char.ofNat (c.toNat + 32) else c

/-- `String.prototype.toLowerCase` (ASCII model, see `lowerCh`). -/
def lowerStr (s : Str) : Str := s.map lowerCh

/-- `s.replace(/\s/g, '')` and `s.replace(/\s+/g, '')`: both remove every
whitespace character. -/
def removeSpaces (s : Str) : Str := s.filter (fun c => !(isJsSpace c))

/-- `a.startsWith(b)` reads `strStarts b a`. -/
def strStarts : Str → Str → Bool
  | [], _ => true
  | _ :: _, [] => false
  | a :: as_, b :: bs => a = b && strStarts as_ bs

/-- The value of `parseInt` on a string of ASCII digits. -/
def natOfDigits (s : Str) : Nat :=
  s.foldl (fun acc c => 10 * acc + (c.toNat - 48)) 0

/-- First-occurrence literal string replacement, `s.replace(pat, repl)` with a
string pattern (the replacement strings used in the sources contain no `$`
substitution patterns, so they are literal). JS inserts `repl` at the front
when the pattern is empty. -/
def replaceFirst : Str → Str → Str → Str
  | [], pat, repl => if pat = [] then repl else []
  | c :: cs, pat, repl =>
    if pat = [] then repl ++ c :: cs
    else if pat.isPrefixOf (c :: cs) then repl ++ (c :: cs).drop pat.length
    else c :: replaceFirst cs pat repl

/-- Lookup in a JS object literal modelled as an association list (the tables
below have no conflicting duplicate keys, so first-match lookup agrees with
object semantics). -/
def objLookup (m : List (Str × Str)) (k : Str) : Option Str :=
  (m.find? fun p => decide (p.1 = k)).map (·.2)

/-!
## Canonical book table

`BIBLE_META` is derived in the sources from `BIBLE_META_WITH_VERSE_COUNTS`
(`src/data/bibleMetaWithVerseCounts.ts`), a data file that is not among the
sources.  The 66 names in canon order are taken from the source's
`bookNameToAbbreviation` literal; the chapter counts are modelled from the
spec ("static ordered list of 66 canonical book names, each with chapter
count"; the spec fixes Genesis = 50 and Revelation = 22) using the canonical
66-book chapter counts.
-/

/-- One entry of `BIBLE_META`: `{ name, chapters }`. -/
structure BookMeta where
  name : Str
  chapters : Nat
deriving DecidableEq, Repr

/-- Modelled from the spec: the chapter counts of
`BIBLE_META_WITH_VERSE_COUNTS` (data file absent from the sources); the names
and their order are the source's `bookNameToAbbreviation` key order. -/
def BIBLE_META_DATA : List (String × Nat) :=
  [("Genesis", 50), ("Exodus", 40), ("Leviticus", 27), ("Numbers", 36),
   ("Deuteronomy", 34), ("Joshua", 24), ("Judges", 21), ("Ruth", 4),
   ("1 Samuel", 31), ("2 Samuel", 24), ("1 Kings", 22), ("2 Kings", 25),
   ("1 Chronicles", 29), ("2 Chronicles", 36), ("Ezra", 10), ("Nehemiah", 13),
   ("Esther", 10), ("Job", 42), ("Psalms", 150), ("Proverbs", 31),
   ("Ecclesiastes", 12), ("Song of Solomon", 8), ("Isaiah", 66),
   ("Jeremiah", 52), ("Lamentations", 5), ("Ezekiel", 48), ("Daniel", 12),
   ("Hosea", 14), ("Joel", 3), ("Amos", 9), ("Obadiah", 1), ("Jonah", 4),
   ("Micah", 7), ("Nahum", 3), ("Habakkuk", 3), ("Zephaniah", 3),
   ("Haggai", 2), ("Zechariah", 14), ("Malachi", 4), ("Matthew", 28),
   ("Mark", 16), ("Luke", 24), ("John", 21), ("Acts", 28), ("Romans", 16),
   ("1 Corinthians", 16), ("2 Corinthians", 13), ("Galatians", 6),
   ("Ephesians", 6), ("Philippians", 4), ("Colossians", 4),
   ("1 Thessalonians", 5), ("2 Thessalonians", 3), ("1 Timothy", 6),
   ("2 Timothy", 4), ("Titus", 3), ("Philemon", 1), ("Hebrews", 13),
   ("James", 5), ("1 Peter", 5), ("2 Peter", 3), ("1 John", 5), ("2 John", 1),
   ("3 John", 1), ("Jude", 1), ("Revelation", 22)]

/-- `BIBLE_META = BIBLE_META_WITH_VERSE_COUNTS.map(book => ({name, chapters}))`. -/
def BIBLE_META : List BookMeta :=
  BIBLE_META_DATA.map fun p => ⟨str p.1, p.2⟩

/-- The source's `bookNameToAbbreviation` object literal. -/
def bookNameToAbbreviationData : List (String × String) :=
  [("Genesis", "Gen"), ("Exodus", "Exod"), ("Leviticus", "Lev"),
   ("Numbers", "Num"), ("Deuteronomy", "Deut"), ("Joshua", "Josh"),
   ("Judges", "Judg"), ("Ruth", "Ruth"), ("1 Samuel", "1 Sam"),
   ("2 Samuel", "2 Sam"), ("1 Kings", "1 Kgs"), ("2 Kings", "2 Kgs"),
   ("1 Chronicles", "1 Chr"), ("2 Chronicles", "2 Chr"), ("Ezra", "Ezra"),
   ("Nehemiah", "Neh"), ("Esther", "Esth"), ("Job", "Job"), ("Psalms", "Ps"),
   ("Proverbs", "Prov"), ("Ecclesiastes", "Eccl"),
   ("Song of Solomon", "Song"), ("Isaiah", "Isa"), ("Jeremiah", "Jer"),
   ("Lamentations", "Lam"), ("Ezekiel", "Ezek"), ("Daniel", "Dan"),
   ("Hosea", "Hos"), ("Joel", "Joel"), ("Amos", "Amos"), ("Obadiah", "Obad"),
   ("Jonah", "Jonah"), ("Micah", "Mic"), ("Nahum", "Nah"),
   ("Habakkuk", "Hab"), ("Zephaniah", "Zeph"), ("Haggai", "Hag"),
   ("Zechariah", "Zech"), ("Malachi", "Mal"), ("Matthew", "Matt"),
   ("Mark", "Mark"), ("Luke", "Luke"), ("John", "John"), ("Acts", "Acts"),
   ("Romans", "Rom"), ("1 Corinthians", "1 Cor"), ("2 Corinthians", "2 Cor"),
   ("Galatians", "Gal"), ("Ephesians", "Eph"), ("Philippians", "Phil"),
   ("Colossians", "Col"), ("1 Thessalonians", "1 Thess"),
   ("2 Thessalonians", "2 Thess"), ("1 Timothy", "1 Tim"),
   ("2 Timothy", "2 Tim"), ("Titus", "Titus"), ("Philemon", "Phlm"),
   ("Hebrews", "Heb"), ("James", "Jas"), ("1 Peter", "1 Pet"),
   ("2 Peter", "2 Pet"), ("1 John", "1 John"), ("2 John", "2 John"),
   ("3 John", "3 John"), ("Jude", "Jude"), ("Revelation", "Rev")]

/-- `bookNameToAbbreviation` over `Str`. -/
def bookNameToAbbreviation : List (Str × Str) :=
  bookNameToAbbreviationData.map fun p => (str p.1, str p.2)

/-- The `abbreviationToBookName` object built by the source's `reduce`: for
each `(name, abbr)` pair, keys `abbr.toLowerCase().replace(/\s/g,'')` and
`abbr.toLowerCase()` both map to `name`.  The keys written more than once all
receive the same value, so the insertion-with-overwrite object semantics
coincides with first-match lookup on this flat list. -/
def abbreviationToBookName : List (Str × Str) :=
  bookNameToAbbreviation.flatMap fun p =>
    [(removeSpaces (lowerStr p.2), p.1), (lowerStr p.2, p.1)]

/-- The source's `ENGLISH_ALIASES` object literal. -/
def ENGLISH_ALIASES_DATA : List (String × String) :=
  [("psalm", "Psalms"), ("psalms", "Psalms"), ("song", "Song of Solomon"),
   ("song of songs", "Song of Solomon"), ("songs", "Song of Solomon"),
   ("1sam", "1 Samuel"), ("2sam", "2 Samuel"), ("1kgs", "1 Kings")]

/-- `ENGLISH_ALIASES` over `Str`. -/
def ENGLISH_ALIASES : List (Str × Str) :=
  ENGLISH_ALIASES_DATA.map fun p => (str p.1, str p.2)

/-- The source's `TELUGU_SYNONYMS` object literal (bibleService embedded in
`src/src/hooks/useHighlights.ts`). -/
def TELUGU_SYNONYMS_DATA : List (String × String) :=
  [("ఆదికాండము", "Genesis"), ("ఆదికాండం", "Genesis"), ("ఆది", "Genesis"),
   ("ఆదికాండ", "Genesis"),
   ("నిర్గమకాండము", "Exodus"), ("నిర్గమకాండం", "Exodus"),
   ("నిర్గమము", "Exodus"), ("నిర్గమం", "Exodus"),
   ("లేవీయకాండము", "Leviticus"), ("లేవీయకాండం", "Leviticus"),
   ("సంఖ్యాకాండము", "Numbers"), ("సంఖ్యాకాండం", "Numbers"),
   ("సంఖ్యలు", "Numbers"),
   ("ద్వితీయోపదేశకాండము", "Deuteronomy"), ("ద్వితీయోపదేశము", "Deuteronomy"),
   ("యెహోషువ", "Joshua"), ("న్యాయాధిపతులు", "Judges"),
   ("న్యాయాధిపతి", "Judges"),
   ("రూతు", "Ruth"), ("1 సమూయేలు", "1 Samuel"), ("2 సమూయేలు", "2 Samuel"),
   ("1 రాజులు", "1 Kings"), ("2 రాజులు", "2 Kings"),
   ("1 దినవృత్తాంతములు", "1 Chronicles"),
   ("2 దినవృత్తాంతములు", "2 Chronicles"),
   ("ఎజ్రా", "Ezra"), ("నెహెమ్యా", "Nehemiah"), ("ఎస్తేరు", "Esther"),
   ("యోబు", "Job"), ("యోబు గ్రంథం", "Job"),
   ("కీర్తనల గ్రంథము", "Psalms"), ("కీర్తనల గ్రంథం", "Psalms"),
   ("కీర్తనలు", "Psalms"), ("కీర్తన", "Psalms"), ("కీర్తనల", "Psalms"),
   ("సామెతలు", "Proverbs"), ("సామెత", "Proverbs"),
   ("ప్రసంగి", "Ecclesiastes"), ("కొహేలెత్", "Ecclesiastes"),
   ("పరమగీతము", "Song of Solomon"), ("పరమగీతం", "Song of Solomon"),
   ("పరమగీత", "Song of Solomon"),
   ("యెషయా", "Isaiah"), ("యిర్మియా", "Jeremiah"), ("యిర్మీయా", "Jeremiah"),
   ("విలాపవాక్యములు", "Lamentations"), ("విలాపవాక్యాలు", "Lamentations"),
   ("యెహెజ్కేలు", "Ezekiel"), ("దానియేలు", "Daniel"),
   ("హోషేయా", "Hosea"), ("యోవేలు", "Joel"), ("ఆమోసు", "Amos"),
   ("ఓబద్యా", "Obadiah"),
   ("యోనా", "Jonah"), ("మీకా", "Micah"), ("నాహూము", "Nahum"),
   ("హబక్కూకు", "Habakkuk"),
   ("సెఫన్యా", "Zephaniah"), ("హగ్గయి", "Haggai"), ("జెకర్యా", "Zechariah"),
   ("మలాకీ", "Malachi"),
   ("మత్తయి", "Matthew"), ("మార్కు", "Mark"), ("లూకా", "Luke"),
   ("యోహాను", "John"),
   ("యోహాను సువార్త", "John"), ("యోహానుతో", "John"),
   ("అపొస్తలుల కార్యములు", "Acts"), ("అపొస్తలుల", "Acts"),
   ("ప్రేరితుల కార్యములు", "Acts"),
   ("రోమీయులకు", "Romans"), ("రోమా", "Romans"),
   ("1 కొరింథీయులకు", "1 Corinthians"), ("2 కొరింథీయులకు", "2 Corinthians"),
   ("గలతీయులకు", "Galatians"), ("ఎఫెసీయులకు", "Ephesians"),
   ("ఫిలిప్పీయులకు", "Philippians"), ("కొలస్సయులకు", "Colossians"),
   ("1 థెస్సలొనీకయులకు", "1 Thessalonians"),
   ("2 థెస్సలొనీకయులకు", "2 Thessalonians"),
   ("1 తిమోతికి", "1 Timothy"), ("1 తిమోతి", "1 Timothy"),
   ("1 తిమోతి పత్రిక", "1 Timothy"),
   ("2 తిమోతికి", "2 Timothy"), ("2 తిమోతి", "2 Timothy"),
   ("2 తిమోతి పత్రిక", "2 Timothy"),
   ("తీతుకు", "Titus"), ("తీతు", "Titus"), ("ఫిలేమోనుకు", "Philemon"),
   ("ఫిలేమోను", "Philemon"),
   ("హెబ్రీయులకు", "Hebrews"), ("హెబ్రీ", "Hebrews"),
   ("యాకోబు", "James"),
   ("1 పేతురు", "1 Peter"), ("2 పేతురు", "2 Peter"),
   ("1 యోహాను", "1 John"), ("2 యోహాను", "2 John"), ("3 యోహాను", "3 John"),
   ("యూదా", "Jude"),
   ("ప్రకటన గ్రంథము", "Revelation"), ("ప్రకటన", "Revelation"),
   ("gen", "Genesis"), ("genesis", "Genesis"), ("exod", "Exodus"),
   ("ps", "Psalms"),
   ("psalm", "Psalms"), ("psalms", "Psalms"), ("prov", "Proverbs"),
   ("prov.", "Proverbs"),
   ("song", "Song of Solomon"), ("song of solomon", "Song of Solomon"),
   ("yohanu", "John"), ("mattai", "Matthew"), ("matthew", "Matthew"),
   ("1 tim", "1 Timothy"), ("2 tim", "2 Timothy"), ("1tim", "1 Timothy"),
   ("2tim", "2 Timothy"),
   ("tim", "1 Timothy"),
   ("1cor", "1 Corinthians"), ("2cor", "2 Corinthians"), ("rom", "Romans"),
   ("roms", "Romans")]

/-- `TELUGU_SYNONYMS` over `Str`. -/
def TELUGU_SYNONYMS : List (Str × Str) :=
  TELUGU_SYNONYMS_DATA.map fun p => (str p.1, str p.2)

/-- Modelled from the spec: the `TELUGU_BOOK_NAMES` map
(`src/data/teluguBookNames.ts` is absent from the sources) — the "official
secondary-script name" of each of the 66 canonical books ("bidirectional
mapping to ... an official secondary-script name"). -/
def TELUGU_BOOK_NAMES_DATA : List (String × String) :=
  [("Genesis", "ఆదికాండము"), ("Exodus", "నిర్గమకాండము"),
   ("Leviticus", "లేవీయకాండము"), ("Numbers", "సంఖ్యాకాండము"),
   ("Deuteronomy", "ద్వితీయోపదేశకాండము"), ("Joshua", "యెహోషువ"),
   ("Judges", "న్యాయాధిపతులు"), ("Ruth", "రూతు"),
   ("1 Samuel", "1 సమూయేలు"), ("2 Samuel", "2 సమూయేలు"),
   ("1 Kings", "1 రాజులు"), ("2 Kings", "2 రాజులు"),
   ("1 Chronicles", "1 దినవృత్తాంతములు"),
   ("2 Chronicles", "2 దినవృత్తాంతములు"),
   ("Ezra", "ఎజ్రా"), ("Nehemiah", "నెహెమ్యా"), ("Esther", "ఎస్తేరు"),
   ("Job", "యోబు"), ("Psalms", "కీర్తనల గ్రంథము"),
   ("Proverbs", "సామెతలు"), ("Ecclesiastes", "ప్రసంగి"),
   ("Song of Solomon", "పరమగీతము"), ("Isaiah", "యెషయా"),
   ("Jeremiah", "యిర్మియా"), ("Lamentations", "విలాపవాక్యములు"),
   ("Ezekiel", "యెహెజ్కేలు"), ("Daniel", "దానియేలు"),
   ("Hosea", "హోషేయా"), ("Joel", "యోవేలు"), ("Amos", "ఆమోసు"),
   ("Obadiah", "ఓబద్యా"), ("Jonah", "యోనా"), ("Micah", "మీకా"),
   ("Nahum", "నాహూము"), ("Habakkuk", "హబక్కూకు"),
   ("Zephaniah", "సెఫన్యా"), ("Haggai", "హగ్గయి"),
   ("Zechariah", "జెకర్యా"), ("Malachi", "మలాకీ"),
   ("Matthew", "మత్తయి"), ("Mark", "మార్కు"), ("Luke", "లూకా"),
   ("John", "యోహాను"), ("Acts", "అపొస్తలుల కార్యములు"),
   ("Romans", "రోమీయులకు"), ("1 Corinthians", "1 కొరింథీయులకు"),
   ("2 Corinthians", "2 కొరింథీయులకు"), ("Galatians", "గలతీయులకు"),
   ("Ephesians", "ఎఫెసీయులకు"), ("Philippians", "ఫిలిప్పీయులకు"),
   ("Colossians", "కొలస్సయులకు"),
   ("1 Thessalonians", "1 థెస్సలొనీకయులకు"),
   ("2 Thessalonians", "2 థెస్సలొనీకయులకు"),
   ("1 Timothy", "1 తిమోతికి"), ("2 Timothy", "2 తిమోతికి"),
   ("Titus", "తీతుకు"), ("Philemon", "ఫిలేమోనుకు"),
   ("Hebrews", "హెబ్రీయులకు"), ("James", "యాకోబు"),
   ("1 Peter", "1 పేతురు"), ("2 Peter", "2 పేతురు"),
   ("1 John", "1 యోహాను"), ("2 John", "2 యోహాను"), ("3 John", "3 యోహాను"),
   ("Jude", "యూదా"), ("Revelation", "ప్రకటన గ్రంథము")]

/-- `TELUGU_BOOK_NAMES` (English → Telugu) over `Str`. -/
def TELUGU_BOOK_NAMES : List (Str × Str) :=
  TELUGU_BOOK_NAMES_DATA.map fun p => (str p.1, str p.2)

/-- `TELUGU_TO_ENGLISH = Object.fromEntries(Object.entries(TELUGU_BOOK_NAMES)
.map(([eng, tel]) => [tel, eng]))` — the Telugu names are pairwise distinct,
so first-match lookup agrees with `fromEntries`. -/
def TELUGU_TO_ENGLISH : List (Str × Str) :=
  TELUGU_BOOK_NAMES.map fun p => (p.2, p.1)

/-!
## Helpers of the embedded bibleService
(`src/src/hooks/useHighlights.ts`, second document)
-/

/-- `replaceTeluguDigits`: `s.replace(/[౦-౯]/g, ch =>
String(ch.charCodeAt(0) - 0x0C66))` (the `if (!s) return s` guard is the
identity on the empty list). -/
def replaceTeluguDigits (s : Str) : Str :=
  s.map fun c =>
    if 0x0C66 ≤ c.toNat && c.toNat ≤ 0x0C6F then
      Char.ofNat (48 + (c.toNat - 0x0C66))
    else c

/-- `normalizeWhitespace`:
`s.replace(/​/g, '').replace(/\s+/g, ' ').trim()`. -/
def normalizeWhitespace (s : Str) : Str :=
  jsTrim (collapseWS (s.filter fun c => decide (c.toNat ≠ 0x200B)))

/-- The character class stripped by `canonicalKey`:
`[.,;:!؟؟​®™*(){}[\]"']` (the Arabic question mark is listed twice in
the source class). -/
def canonKeyStrip (c : Char) : Bool :=
  c = '.' || c = ',' || c = ';' || c = ':' || c = '!' || c = '؟' ||
  c.toNat = 0x200B || c = '®' || c = '™' || c = '*' || c = '(' || c = ')' ||
  c = lbr || c = rbr || c = '[' || c = ']' || c = '"' || c = apos

/-- `canonicalKey`: lowercase, strip the punctuation class, trim. -/
def canonicalKey (s : Str) : Str :=
  jsTrim ((lowerStr s).filter fun c => !(canonKeyStrip c))

/-- `tryEnglishAbbreviation`: abbreviation table on the cleaned key, then on
the plain lowercased input, then the small alias map. -/
def tryEnglishAbbreviation (book : Str) : Option Str :=
  if book = [] then none
  else
    (objLookup abbreviationToBookName (removeSpaces (canonicalKey book))) <|>
    (objLookup abbreviationToBookName (lowerStr book)) <|>
    (objLookup ENGLISH_ALIASES (lowerStr book))

/-- Result of `extractNumericPrefix` in the source: an optional numeral string
and the remaining name. -/
structure NumName where
  num : Option Str
  name : Str
deriving DecidableEq, Repr

/-- Third branch of the numeral extractor: the match of
`/^[౦-౯]\s*(.+)$/` against the raw (unnormalized) input; `.` does
not cross line terminators. -/
def mTelNum (s bookRaw : Str) : NumName :=
  match bookRaw with
  | c :: rest =>
    if 0x0C66 ≤ c.toNat && c.toNat ≤ 0x0C6F then
      let r2 := rest.dropWhile isJsSpace
      if r2 ≠ [] && r2.all fun ch => !(isLineTerm ch) then
        ⟨some [Char.ofNat (48 + (c.toNat - 0x0C66))], jsTrim r2⟩
      else ⟨none, s⟩
    else ⟨none, s⟩
  | [] => ⟨none, s⟩

/-- Second branch: the match of `/^(.+?)\s+([1-3])$/` (on the
whitespace-normalized `s`, which contains no line terminators); the lazy
prefix makes the split happen at the final whitespace run before a trailing
numeral. -/
def mSuffixNum (s bookRaw : Str) : NumName :=
  match s.reverse with
  | d :: rest =>
    if digit13 d then
      let sp := rest.takeWhile isJsSpace
      let pre := rest.dropWhile isJsSpace
      if sp ≠ [] && pre ≠ [] then ⟨some [d], jsTrim pre.reverse⟩
      else mTelNum s bookRaw
    else mTelNum s bookRaw
  | [] => mTelNum s bookRaw

/-- `extractNumericPrefix` from the source: prefix numeral
(`/^([1-3])\s+(.+)$/`), then suffix numeral, then a raw Telugu-digit prefix. -/
def extractNumeral (bookRaw : Str) : NumName :=
  let s := normalizeWhitespace (replaceTeluguDigits bookRaw)
  match s with
  | c :: rest =>
    if digit13 c then
      let sp := rest.takeWhile isJsSpace
      let r2 := rest.dropWhile isJsSpace
      if sp ≠ [] && r2 ≠ [] then ⟨some [c], jsTrim r2⟩
      else mSuffixNum s bookRaw
    else mSuffixNum s bookRaw
  | [] => mSuffixNum s bookRaw

/-- Right-to-left analysis of the single anchored match of
`/\s*\d+:\d+(-\d+)?\s*$/` used by `canonicalizeBook` to strip a trailing
`chapter:verse[-verse]` suffix; returns the input unchanged when the pattern
does not match. -/
def stripCvSuffix (s : Str) : Str :=
  let r := s.reverse
  let r1 := r.dropWhile isJsSpace
  let d2 := r1.takeWhile isAsciiDigit
  let r2 := r1.dropWhile isAsciiDigit
  if d2 = [] then s
  else
    match r2 with
    | '-' :: r3 =>
      let b := r3.takeWhile isAsciiDigit
      let r4 := r3.dropWhile isAsciiDigit
      if b = [] then s
      else
        match r4 with
        | ':' :: r5 =>
          let a := r5.takeWhile isAsciiDigit
          let r6 := r5.dropWhile isAsciiDigit
          if a = [] then s else (r6.dropWhile isJsSpace).reverse
        | _ => s
    | ':' :: r3 =>
      let a := r3.takeWhile isAsciiDigit
      let r4 := r3.dropWhile isAsciiDigit
      if a = [] then s else (r4.dropWhile isJsSpace).reverse
    | _ => s

/-- `^[\x00-\x7F]*$`: the name is pure ASCII. -/
def isAsciiStr (s : Str) : Bool := s.all fun c => c.toNat ≤ 0x7F

/-- The numeral-and-name candidates tried by step 2 of `canonicalizeBook`:
`"{num} {name}"`, `"{num}{name}"`, `"{name} {num}"` when a numeral was
extracted, always followed by the bare name. -/
def synonymTries (num : Option Str) (name : Str) : List Str :=
  (match num with
   | some n => [n ++ [' '] ++ name, n ++ name, name ++ [' '] ++ n]
   | none => []) ++ [name]

/-- One iteration of the synonym/official-name lookup loop of
`canonicalizeBook`. -/
def synonymLookup1 (t : Str) : Option Str :=
  let key := jsTrim t
  let kLower := canonicalKey key
  objLookup TELUGU_SYNONYMS key <|> objLookup TELUGU_SYNONYMS kLower <|>
  objLookup TELUGU_TO_ENGLISH key <|> objLookup TELUGU_TO_ENGLISH kLower <|>
  objLookup TELUGU_SYNONYMS (lowerStr key)

/-- The ordered lookup strategies of `canonicalizeBook` (everything between
the whitespace normalization and the final `return raw` fallback), applied to
the normalized input `r`; `none` means no strategy matched. -/
def canonicalizeStrategies (r : Str) : Option Str :=
  let withoutCv := jsTrim (stripCvSuffix r)
  let en := extractNumeral withoutCv
  let name := en.name
  let asciiHit : Option Str :=
    if isAsciiStr name then
      tryEnglishAbbreviation
        ((match en.num with | some n => n ++ [' '] | none => []) ++ name) <|>
      ((BIBLE_META.find? fun b =>
          decide (lowerStr b.name = lowerStr name)).map (·.name)) <|>
      ((BIBLE_META.find? fun b =>
          strStarts (lowerStr name) (lowerStr b.name)).map (·.name))
    else none
  asciiHit <|>
  (synonymTries en.num name).findSome? synonymLookup1 <|>
  tryEnglishAbbreviation withoutCv <|>
  ((BIBLE_META.find? fun b =>
      strStarts (lowerStr name) (lowerStr b.name)).map (·.name))

/-- `canonicalizeBook` from the embedded bibleService: total resolution of a
raw book name; when every strategy fails it returns the
whitespace-normalized input (the source reassigns
`raw = normalizeWhitespace(raw)` before the final `return raw`). -/
def canonicalizeBook (raw : Str) : Str :=
  if raw = [] then raw
  else
    let r := normalizeWhitespace raw
    (canonicalizeStrategies r).getD r

/-- The `BookMetadata` result type declared in the repository's types file:
`{ name, chapters, wasFuzzy?: boolean }`; `wasFuzzy = none` models an absent
(undefined) field. -/
structure BookMetadataR where
  name : Str
  chapters : Nat
  wasFuzzy : Option Bool
deriving DecidableEq, Repr

/-- Conversion of a `BIBLE_META` entry to the lookup result; the source
returns the `{name, chapters}` entry itself, leaving `wasFuzzy` undefined. -/
def toMetaR (b : BookMeta) : BookMetadataR := ⟨b.name, b.chapters, none⟩

/-- `findBookMetadata` of the embedded bibleService
(`src/src/hooks/useHighlights.ts`): canonicalize, exact match, starts-with
fallback, abbreviation fallback. -/
def findBookMetadata (query : Str) : Option BookMetadataR :=
  if query = [] then none
  else
    let eng := canonicalizeBook (jsTrim query)
    match BIBLE_META.find? fun b => decide (lowerStr b.name = lowerStr eng) with
    | some b => some (toMetaR b)
    | none =>
      match BIBLE_META.find? fun b => strStarts (lowerStr eng) (lowerStr b.name) with
      | some b => some (toMetaR b)
      | none =>
        match tryEnglishAbbreviation eng with
        | some ab =>
          match BIBLE_META.find? fun b => decide (b.name = ab) with
          | some b => some (toMetaR b)
          | none => none
        | none => none

/-!
## `normalizeTeluguReference` (embedded bibleService) and the reference parser
(`parseReferencesFromString` in `src/src/App.tsx`)
-/

/-- The class `[^\d:]` of the book-part regex of `normalizeTeluguReference`. -/
def notDigitColon (c : Char) : Bool := !(isAsciiDigit c || c = ':')

/-- The lookahead `(?=\s+\d+[:\s]|$)` of the book-part regex. -/
def bpLook (t : Str) : Bool :=
  t = [] ||
  (let sp := t.takeWhile isJsSpace
   let t1 := t.dropWhile isJsSpace
   sp ≠ [] &&
   (let d := t1.takeWhile isAsciiDigit
    let t2 := t1.dropWhile isAsciiDigit
    d ≠ [] && (match t2 with
               | c :: _ => c = ':' || isJsSpace c
               | [] => false)))

/-- Search for the end of `\s*[^\d:]+?` followed by the lookahead, starting
after the optional numeral: the greedy `\s*` prefers the longest whitespace
run, the lazy body prefers the shortest extension; returns the number of
characters consumed. -/
def bpBody (rest : Str) : Option Nat :=
  let maxSp := (rest.takeWhile isJsSpace).length
  ((List.range (maxSp + 1)).reverse).findSome? fun spLen =>
    let after := rest.drop spLen
    let limit := (after.takeWhile notDigitColon).length
    (List.range limit).findSome? fun k =>
      if bpLook (after.drop (k + 1)) then some (spLen + k + 1) else none

/-- The anchored match of `/^([1-3]?\s*[^\d:]+?)(?=\s+\d+[:\s]|$)/u`: returns
the captured group `m[1]` (numeral, consumed whitespace and body). -/
def bpMatch (s : Str) : Option Str :=
  match s with
  | c :: rest =>
    if digit13 c then
      match bpBody rest with
      | some n => some (c :: rest.take n)
      | none => (bpBody s).map fun n => s.take n
    else (bpBody s).map fun n => s.take n
  | [] => none

/-- `normalizeTeluguReference` of the embedded bibleService: extract the
leading book portion, canonicalize it, and splice the canonical name back
into the string (first-occurrence string replacement). -/
def normalizeTeluguReference (query : Str) : Str :=
  if query = [] then query
  else
    let cleaned := normalizeWhitespace query
    match bpMatch cleaned with
    | none => cleaned
    | some m1 =>
      let bookPart := jsTrim m1
      if bookPart = [] then cleaned
      else replaceFirst cleaned bookPart (canonicalizeBook bookPart)

/-- The book character class of `App.tsx`'s `referenceRegex`:
`[A-Za-zఀ-౿.'’\- ]`. -/
def isRefBookChar (c : Char) : Bool :=
  ('A' ≤ c && c ≤ 'Z') || ('a' ≤ c && c ≤ 'z') ||
  (0x0C00 ≤ c.toNat && c.toNat ≤ 0x0C7F) ||
  c = '.' || c = apos || c = '’' || c = '-' || c.toNat = 0xA0

/-- Deterministic match of the tail `\s+(\d+)\s*:\s*(\d+)(?:-(\d+))?$` of the
reference grammar; returns `(chapter, startVerse, endVerse?)` as the
`parseInt` values of the captured digit groups. -/
def tailRefMatch (t : Str) : Option (Nat × Nat × Option Nat) :=
  let sp1 := t.takeWhile isJsSpace
  let t1 := t.dropWhile isJsSpace
  if sp1 = [] then none
  else
    let d1 := t1.takeWhile isAsciiDigit
    let t2 := t1.dropWhile isAsciiDigit
    if d1 = [] then none
    else
      match t2.dropWhile isJsSpace with
      | ':' :: t4 =>
        let t5 := t4.dropWhile isJsSpace
        let d2 := t5.takeWhile isAsciiDigit
        let t6 := t5.dropWhile isAsciiDigit
        if d2 = [] then none
        else
          match t6 with
          | [] => some (natOfDigits d1, natOfDigits d2, none)
          | '-' :: t7 =>
            let d3 := t7.takeWhile isAsciiDigit
            let t8 := t7.dropWhile isAsciiDigit
            if d3 = [] || t8 ≠ [] then none
            else some (natOfDigits d1, natOfDigits d2, some (natOfDigits d3))
          | _ => none
      | _ => none

/-- Search for the end of the lazy book body of `referenceRegex` (greedy
`\s*`, lazy `[...]+?`), with the rigid tail match as continuation; returns
`(consumed, chapter, startVerse, endVerse?)`. -/
def refBody (rest : Str) : Option (Nat × Nat × Nat × Option Nat) :=
  let maxSp := (rest.takeWhile isJsSpace).length
  ((List.range (maxSp + 1)).reverse).findSome? fun spLen =>
    let after := rest.drop spLen
    let limit := (after.takeWhile isRefBookChar).length
    (List.range limit).findSome? fun k =>
      (tailRefMatch (after.drop (k + 1))).map fun r =>
        (spLen + k + 1, r.1, r.2.1, r.2.2)

/-- The anchored match of `App.tsx`'s
`referenceRegex = /^([1-3]?\s*[A-Za-zఀ-౿.'’\- ]+?)\s+(\d+)\s*:\s*(\d+)(?:-(\d+))?$/u`;
returns the captured book text `m[1]` and the numeric captures. -/
def refRegexMatch (s : Str) : Option (Str × Nat × Nat × Option Nat) :=
  match s with
  | c :: rest =>
    if digit13 c then
      match refBody rest with
      | some (n, ch, sv, ev) => some (c :: rest.take n, ch, sv, ev)
      | none => (refBody s).map fun r => (s.take r.1, r.2.1, r.2.2.1, r.2.2.2)
    else (refBody s).map fun r => (s.take r.1, r.2.1, r.2.2.1, r.2.2.2)
  | [] => none

/-- The `ParsedReference` record of the repository's types file. -/
structure ParsedReference where
  book : Str
  chapter : Nat
  startVerse : Nat
  endVerse : Option Nat
deriving DecidableEq, Repr

/-- The loop body of `parseReferencesFromString` for one split segment: trim,
skip empty, normalize the Telugu book portion, match the grammar, resolve the
book, validate chapter bounds and verse-range order (`parseInt` on the `\d+`
captures never yields `NaN`, so the `isNaN` guard of the source is vacuous). -/
def segParse (rawPart : Str) : Option ParsedReference :=
  let text := jsTrim rawPart
  if text = [] then none
  else
    match refRegexMatch (normalizeTeluguReference text) with
    | none => none
    | some (m1, ch, sv, ev) =>
      match findBookMetadata (jsTrim m1) with
      | none => none
      | some bm =>
        if ch < 1 then none
        else if bm.chapters < ch then none
        else
          match ev with
          | some e => if e < sv then none else some ⟨bm.name, ch, sv, ev⟩
          | none => some ⟨bm.name, ch, sv, ev⟩

/-- Leftmost match of the splitting pattern `/\s*[;,]\s*/`: returns the
segment before the match and the remainder after it. -/
def findDelim : Str → Option (Str × Str)
  | [] => none
  | c :: cs =>
    match (c :: cs).dropWhile isJsSpace with
    | d :: r2 =>
      if d = ';' || d = ',' then some ([], r2.dropWhile isJsSpace)
      else
        match findDelim cs with
        | some (seg, rest) => some (c :: seg, rest)
        | none => none
    | [] =>
      match findDelim cs with
      | some (seg, rest) => some (c :: seg, rest)
      | none => none

/-- `refString.split(/\s*[;,]\s*/)`; each match consumes at least the
delimiter, so a fuel of the string length suffices. -/
def splitDelims (fuel : Nat) (s : Str) : List Str :=
  match fuel with
  | 0 => [s]
  | fuel + 1 =>
    match findDelim s with
    | none => [s]
    | some (seg, rest) => seg :: splitDelims fuel rest

/-- `parseReferencesFromString` from `src/src/App.tsx`: split on `;`/`,`,
parse each non-empty segment, silently drop failures, keep input order. -/
def parseReferencesFromString (refString : Str) : List ParsedReference :=
  ((splitDelims (refString.length + 1) refString).filterMap segParse)

/-- Chapter count of a canonical book name looked up in `BIBLE_META`. -/
def chaptersOf (name : Str) : Option Nat :=
  (BIBLE_META.find? fun b => decide (b.name = name)).map (·.chapters)

/-!
## The second `findBookMetadata` (`src/services/bibleService.ts`)
-/

/-- Modelled from the spec: `TELUGU_TO_ENGLISH_BOOK_MAP`
(`src/data/teluguToEnglishBookMap.ts` is absent from the sources) — the
reverse official-name mapping of the Canonical Book Table ("bidirectional
mapping to ... an official secondary-script name"). -/
def TELUGU_TO_ENGLISH_BOOK_MAP : List (Str × Str) :=
  TELUGU_BOOK_NAMES.map fun p => (p.2, p.1)

/-- `findBookMetadata` from `src/services/bibleService.ts`: lowercased trim,
exact full-name match, abbreviation match, Telugu starts-with scan, and a
final starts-with fallback. -/
def findBookMetadataV2 (query : Str) : Option BookMetadataR :=
  let cleaned := lowerStr (jsTrim query)
  let cleanedNoSpace := removeSpaces cleaned
  match BIBLE_META.find? fun b => decide (lowerStr b.name = cleaned) with
  | some b => some (toMetaR b)
  | none =>
    match (objLookup abbreviationToBookName cleanedNoSpace <|>
           objLookup abbreviationToBookName cleaned).bind fun ab =>
            BIBLE_META.find? fun b => decide (b.name = ab) with
    | some b => some (toMetaR b)
    | none =>
      match TELUGU_TO_ENGLISH_BOOK_MAP.findSome? fun p =>
          if strStarts (lowerStr p.1) cleaned then
            BIBLE_META.find? fun b => decide (b.name = p.2)
          else none with
      | some b => some (toMetaR b)
      | none =>
        match BIBLE_META.find? fun b => strStarts cleaned (lowerStr b.name) with
        | some b => some (toMetaR b)
        | none => none

/-!
## Secondary-script transliterator
(`transliterateLatinToTelugu` in `src/unnamed/part_005`, the VerseTools
component)
-/

/-- Case-insensitive character comparison for `/i` patterns (ASCII model, the
patterns are ASCII). -/
def chCI (a b : Char) : Bool := lowerCh a = lowerCh b

/-- Prefix test for a literal pattern, optionally case-insensitive. -/
def litPrefix (ci : Bool) : Str → Str → Bool
  | [], _ => true
  | _ :: _, [] => false
  | p :: ps, c :: cs => (if ci then chCI p c else decide (p = c)) && litPrefix ci ps cs

/-- Global literal replacement `s.replace(/pat/g, rep)` (or `/pat/gi`):
leftmost, non-overlapping; the pattern is non-empty, so a fuel of the string
length suffices. -/
def replAllLit (ci : Bool) (pat rep : Str) : Nat → Str → Str
  | 0, s => s
  | _ + 1, [] => []
  | fuel + 1, c :: cs =>
    if pat ≠ [] && litPrefix ci pat (c :: cs) then
      rep ++ replAllLit ci pat rep fuel ((c :: cs).drop pat.length)
    else c :: replAllLit ci pat rep fuel cs

/-- Global replacement of a single-character class,
`s.replace(/[c₁c₂…]/g, rep)`. -/
def replClass (cls : List Char) (rep : Str) (s : Str) : Str :=
  s.flatMap fun c => if c ∈ cls then rep else [c]

/-- One substitution rule: either a literal pattern (with case flag) or a
single-character class. -/
inductive TranslitRule where
  | lit (ci : Bool) (pat : String) (rep : Str) : TranslitRule
  | cls (cs : List Char) (rep : Str) : TranslitRule

/-- Application of one rule as a global replacement. -/
def applyRule (s : Str) : TranslitRule → Str
  | .lit ci pat rep => replAllLit ci (str pat) rep s.length s
  | .cls cs rep => replClass cs rep s

/-- The ordered rule table of `transliterateLatinToTelugu`: digraph
consonants first (`/gi`), then single consonants (character classes such as
`[bB]`), then long/diphthong vowels (`/gi`), then case-sensitive single
vowels.  The replacement for `chh` is `ఛ` + virama + zero-width joiner,
exactly as in the source literal. -/
def translitRules : List TranslitRule :=
  [.lit true "chh" (str "ఛ్" ++ [Char.ofNat 0x200D]),
   .lit true "kh" (str "ఖ"), .lit true "gh" (str "ఘ"),
   .lit true "ph" (str "ఫ"), .lit true "th" (str "థ"),
   .lit true "dh" (str "ధ"), .lit true "sh" (str "ష"),
   .lit true "ch" (str "చ"), .lit true "ts" (str "త్స"),
   .lit true "ng" (str "ంగ"), .lit true "ny" (str "న్య"),
   .cls ['b', 'B'] (str "బ"), .cls ['c', 'C'] (str "క"),
   .cls ['d', 'D'] (str "ద"), .cls ['f', 'F'] (str "ఫ"),
   .cls ['g', 'G'] (str "గ"), .cls ['h', 'H'] (str "హ"),
   .cls ['j', 'J'] (str "జ"), .cls ['k', 'K'] (str "క"),
   .cls ['l', 'L'] (str "ల"), .cls ['m', 'M'] (str "మ"),
   .cls ['n', 'N'] (str "న"), .cls ['p', 'P'] (str "ప"),
   .cls ['r', 'R'] (str "ర"), .cls ['s', 'S'] (str "స"),
   .cls ['t', 'T'] (str "త"), .cls ['v', 'V'] (str "వ"),
   .cls ['w', 'W'] (str "వ"), .cls ['x', 'X'] (str "క్స"),
   .cls ['y', 'Y'] (str "య"), .cls ['z', 'Z'] (str "జ"),
   .lit true "aa" (str "ా"), .lit true "ii" (str "ీ"),
   .lit true "uu" (str "ూ"), .lit true "ai" (str "ై"),
   .lit true "au" (str "ౌ"),
   .lit false "e" (str "ె"), .lit false "o" (str "ొ"),
   .lit false "i" (str "ి"), .lit false "u" (str "ు"),
   .lit false "a" []]

/-- The vowel-sign class `[ాీూెొైౌ]` of the transliterator's final pass
(U+0C3E, U+0C40, U+0C42, U+0C46, U+0C4A, U+0C48, U+0C4C). -/
def cls7 : List Char := ['ా', 'ీ', 'ూ', 'ె', 'ొ', 'ై', 'ౌ']

/-- The final pass `s.replace(/(^|\s)[ాీూెొైౌ]/g, m => (m.startsWith(" ") ?
" అ" : "అ") + m.trim())`: `bol` records whether the current position is the
string start or is preceded by a whitespace character (the alternative
`(^|\s)`).  A match consumes the optional whitespace and the sign and the
replacement reinserts the whitespace unchanged before `అ` and the sign, so
the scan can equivalently emit each character and insert `అ` before a
`cls7` sign standing at the string start or right after whitespace; after a
sign the next position is never at a word start, which the flag update
`isJsSpace c` (false on a sign) reproduces exactly. -/
def finalCarrierPass (bol : Bool) : Str → Str
  | [] => []
  | c :: cs =>
    if bol && decide (c ∈ cls7) then
      'అ' :: c :: finalCarrierPass false cs
    else c :: finalCarrierPass (isJsSpace c) cs

/-- `transliterateLatinToTelugu` from `src/unnamed/part_005`: trim, apply the
rule table in order, collapse whitespace, trim, then run the word-initial
vowel-sign carrier pass. -/
def transliterateLatinToTelugu (input : Str) : Str :=
  if input = [] then []
  else
    let s0 := jsTrim input
    let s1 := translitRules.foldl applyRule s0
    let s2 := jsTrim (collapseWS s1)
    finalCarrierPass true s2

/-- Checker for the guarantee of the final pass: no word of the string (a
maximal run between whitespace) begins with one of the seven vowel signs of
`cls7`; `bol` tracks word starts just as in `finalCarrierPass`. -/
def wordsStartOk (bol : Bool) : Str → Bool
  | [] => true
  | c :: cs => !(bol && decide (c ∈ cls7)) && wordsStartOk (isJsSpace c) cs

/-- The Telugu dependent vowel signs U+0C3E–U+0C4C. -/
def isTeluguVowelSign (c : Char) : Bool :=
  0x0C3E ≤ c.toNat && c.toNat ≤ 0x0C4C

/-!
## Analysis text reshaper
(the interlinear post-processing of `getVerseAnalysis` in
`src/src/services/geminiService.ts`, lines 416–503)
-/

/-- Combining marks `\p{M}` (model restricted to the blocks that can occur in
transliteration output: combining diacritics, Hebrew points, extended
combining blocks). -/
def isMark (c : Char) : Bool :=
  (0x0300 ≤ c.toNat && c.toNat ≤ 0x036F) ||
  (0x0591 ≤ c.toNat && c.toNat ≤ 0x05C7) ||
  (0x0610 ≤ c.toNat && c.toNat ≤ 0x061A) ||
  (0x064B ≤ c.toNat && c.toNat ≤ 0x065F) ||
  (0x1AB0 ≤ c.toNat && c.toNat ≤ 0x1AFF) ||
  (0x1DC0 ≤ c.toNat && c.toNat ≤ 0x1DFF) ||
  (0x20D0 ≤ c.toNat && c.toNat ≤ 0x20FF) ||
  (0xFE20 ≤ c.toNat && c.toNat ≤ 0xFE2F)

/-- ASCII letter or digit (the class `[A-Za-z0-9]`). -/
def isAlnum (c : Char) : Bool :=
  ('A' ≤ c && c ≤ 'Z') || ('a' ≤ c && c ≤ 'z') || ('0' ≤ c && c ≤ '9')

/-- Run-collapsing global replacement: every run of the character `t` becomes
a single `t` (the pattern `/t+/g`); `prev` records whether the previous
character was part of a run that already emitted its single copy. -/
def collapseRunAux (t : Char) (prev : Bool) : Str → Str
  | [] => []
  | c :: cs =>
    if c = t then
      if prev then collapseRunAux t true cs else t :: collapseRunAux t true cs
    else c :: collapseRunAux t false cs

/-- Collapse runs of apostrophes: `s.replace(/'+/g, "'")`. -/
def collapseApos (s : Str) : Str := collapseRunAux apos false s

/-- Collapse runs of hyphens: the replacement of every hyphen run by a single
hyphen (the source's last sanitation regex before the trim). -/
def collapseHyphen (s : Str) : Str := collapseRunAux '-' false s

/-- `s.replace(/([A-Za-z0-9])'([A-Za-z0-9])/g, "$1-$2")`: global scan; after
a replacement the search resumes after the second alphanumeric character. -/
def aposBetween : Str → Str
  | a :: q :: b :: rest =>
    if isAlnum a && q = apos && isAlnum b then
      a :: '-' :: b :: aposBetween rest
    else a :: aposBetween (q :: b :: rest)
  | other => other

/-- The diacritic substitution table of `sanitizeModelTranslitOptionB`
(`src/src/services/geminiService.ts`), in source order.  Alternations of
single characters (`š|ś`, `ʿ|ʾ|ʼ|’|`` ``, the accent groups) are
character-class replacements; the replacement characters never belong to a
later class of the table, so the sequential application agrees with the
single-pass alternation.  The pattern `ā́` (a two-code-point literal) can no
longer occur when its rule runs (`ā` was already replaced) and is kept for
faithfulness. -/
def sanitizeRules : List TranslitRule :=
  [.cls ['ā'] (str "aa"), .cls ['ē'] (str "ee"), .cls ['ī'] (str "ii"),
   .cls ['ō'] (str "oo"), .cls ['ū'] (str "uu"), .cls ['ə'] (str "a"),
   .cls ['ḥ'] (str "h"), .cls ['ṭ'] (str "t"), .cls ['ṣ'] (str "s"),
   .cls ['š', 'ś'] (str "sh"),
   .cls ['ḏ'] (str "d"), .cls ['ṯ'] (str "t"), .cls ['ḇ'] (str "b"),
   .cls ['ẓ'] (str "z"),
   .cls ['ʿ', 'ʾ', 'ʼ', '’', bq] [apos],
   .cls ['á', 'à', 'â', 'ã', 'ä'] (str "a"),
   .cls ['é', 'è', 'ê', 'ë'] (str "e"),
   .cls ['í', 'ì', 'î', 'ï'] (str "i"),
   .cls ['ó', 'ò', 'ô', 'õ', 'ö'] (str "o"),
   .cls ['ú', 'ù', 'û', 'ü'] (str "u"),
   .lit false "ā́" (str "aa")]

/-- `sanitizeModelTranslitOptionB`: diacritic table, `\p{M}` removal, charset
restriction to `[A-Za-z0-9'\-\s]`, apostrophe-run collapse, inter-alnum
apostrophe to hyphen, hyphen-run collapse, trim. -/
def sanitizeModelTranslitOptionB (input : Str) : Str :=
  let s1 := sanitizeRules.foldl applyRule input
  let s2 := s1.filter fun c => !(isMark c)
  let s3 := s2.filter fun c => isAlnum c || c = apos || c = '-' || isJsSpace c
  let s4 := collapseApos s3
  let s5 := aposBetween s4
  let s6 := collapseHyphen s5
  jsTrim s6

/-- Greek characters of the word-by-word entry patterns: model of
`[\p{Script=Greek}Ͱ-Ͽἀ-῿]` by the two explicit ranges
(which cover the Greek and Greek-Extended blocks used by the generator). -/
def isGreekCh (c : Char) : Bool :=
  (0x370 ≤ c.toNat && c.toNat ≤ 0x3FF) || (0x1F00 ≤ c.toNat && c.toNat ≤ 0x1FFF)

/-- Continuation characters of a Greek word in `entryRx`: the Greek class
plus the two straight apostrophes of the source class `[…'']`. -/
def isGreekCont (c : Char) : Bool := isGreekCh c || c = apos

/-- ASCII word character (`\w`, for `\b` word boundaries). -/
def isWordCh (c : Char) : Bool := isAlnum c || c = '_'

/-- `\**` followed by `\s*` helper: length of the run. -/
def starWsLen (s : Str) : Nat :=
  let st := s.takeWhile (· = '*')
  st.length + ((s.drop st.length).takeWhile isJsSpace).length

/-- Consume a case-insensitive literal; returns the rest. -/
def eatLitCI (lit : Str) (s : Str) : Option Str :=
  if litPrefix true lit s then some (s.drop lit.length) else none

/-- Consume `\s*`. -/
def eatWS (s : Str) : Str := s.dropWhile isJsSpace

/-- Consume the optional `[:：]?` (ASCII or fullwidth colon). -/
def eatOptColon (s : Str) : Str :=
  match s with
  | c :: cs => if c = ':' || c.toNat = 0xFF1A then cs else s
  | [] => s

/-- Consume the trailing `\**`. -/
def eatStars (s : Str) : Str := s.dropWhile (· = '*')

/-- Match at the current position the header pattern
`/\**\s*N\.\s*BODY\s*[:：]?\**/i` where `BODY` is matched by `body`; returns
the number of characters consumed. -/
def hdrMatchAt (n : Char) (body : Str → Option Str) (s : Str) : Option Nat :=
  let s1 := eatStars s
  let s2 := eatWS s1
  match s2 with
  | c :: cs =>
    if c = n then
      match cs with
      | '.' :: cs2 =>
        match body (eatWS cs2) with
        | some s3 =>
          let s4 := eatStars (eatOptColon (eatWS s3))
          some (s.length - s4.length)
        | none => none
      | _ => none
    else none
  | [] => none

/-- Body of header 1: `(Hebrew|Greek)\s*Text`. -/
def h1Body (s : Str) : Option Str :=
  ((eatLitCI (str "Hebrew") s) <|> (eatLitCI (str "Greek") s)).bind fun s1 =>
    eatLitCI (str "Text") (eatWS s1)

/-- Body of header 2: `(English\s*)?Transliteration` (the optional group is
tried first). -/
def h2Body (s : Str) : Option Str :=
  (match eatLitCI (str "English") s with
   | some s1 => eatLitCI (str "Transliteration") (eatWS s1)
   | none => none) <|>
  eatLitCI (str "Transliteration") s

/-- Body of header 3: `(Smooth\s*)?English\s*Translation`. -/
def h3Body (s : Str) : Option Str :=
  (match eatLitCI (str "Smooth") s with
   | some s1 =>
     (eatLitCI (str "English") (eatWS s1)).bind fun s2 =>
       eatLitCI (str "Translation") (eatWS s2)
   | none => none) <|>
  (eatLitCI (str "English") s).bind fun s2 =>
    eatLitCI (str "Translation") (eatWS s2)

/-- Body of header 4: `Word[- ]by[- ]Word Analysis` (a literal space before
`Analysis`). -/
def h4Body (s : Str) : Option Str :=
  (eatLitCI (str "Word") s).bind fun s1 =>
    match s1 with
    | c :: cs =>
      if c = '-' || c = ' ' then
        (eatLitCI (str "by") cs).bind fun s2 =>
          match s2 with
          | c2 :: cs2 =>
            if c2 = '-' || c2 = ' ' then
              (eatLitCI (str "Word") cs2).bind fun s3 =>
                eatLitCI (str " Analysis") s3
            else none
          | [] => none
      else none
    | [] => none

/-- First-match regex replacement: scan left to right with the position
matcher `m`, replace the matched span once. -/
def replaceFirstBy (m : Str → Option Nat) (repl : Str) : Str → Str
  | [] => if (m []).isSome then repl else []
  | c :: cs =>
    match m (c :: cs) with
    | some k => repl ++ (c :: cs).drop k
    | none => c :: replaceFirstBy m repl cs

/-- The lookahead of `sec2Rx`:
`(?=\n\s*(?:\*\*3\.|\b3\.|---))` — a newline, greedy backtracking `\s*`, then
one of the three alternatives (`\b` holds automatically after whitespace). -/
def sec2Look (t : Str) : Bool :=
  match t with
  | '\n' :: t1 =>
    let maxWs := (t1.takeWhile isJsSpace).length
    ((List.range (maxWs + 1)).reverse).any fun j =>
      let u := t1.drop j
      (str "**3.").isPrefixOf u || (str "3.").isPrefixOf u ||
      (str "---").isPrefixOf u
  | _ => false

/-- Match `sec2Rx` at the current position (`prev` is the preceding character
for the `\b` of the second alternative); returns the captured lazy body
`([\s\S]*?)`.  The trailing `\s*` of the header is greedy with backtracking,
the capture is lazy. -/
def sec2At (prev : Option Char) (s : Str) : Option Str :=
  let hdr : Option Str :=
    (match eatLitCI (str "**2.") s with
     | some s1 =>
       (eatLitCI (str "English Transliteration:") (eatWS s1)).bind fun s2 =>
         eatLitCI (str "**") s2
     | none => none) <|>
    (if (match prev with | some p => !(isWordCh p) | none => true) then
       match eatLitCI (str "2.") s with
       | some s1 =>
         (eatLitCI (str "English Transliteration") (eatWS s1)).map fun s2 =>
           eatOptColon s2
       | none => none
     else none)
  hdr.bind fun s3 =>
    let maxWs := (s3.takeWhile isJsSpace).length
    ((List.range (maxWs + 1)).reverse).findSome? fun w =>
      let after := s3.drop w
      (List.range (after.length + 1)).findSome? fun k =>
        if sec2Look (after.drop k) then some (after.take k) else none

/-- Leftmost match of `sec2Rx` over the whole string. -/
def findSec2 (prev : Option Char) : Str → Option Str
  | [] => sec2At prev []
  | c :: cs =>
    match sec2At prev (c :: cs) with
    | some body => some body
    | none => findSec2 (some c) cs

/-- Match `wbaSectionRx` at the current position: returns the captured
`([\s\S]*)$` (everything after the greedy header whitespace). -/
def wbaAt (prev : Option Char) (s : Str) : Option Str :=
  (match eatLitCI (str "**4.") s with
   | some s1 =>
     (eatLitCI (str "Word-by-Word Analysis:**") (eatWS s1)).map eatWS
   | none => none) <|>
  (if (match prev with | some p => !(isWordCh p) | none => true) then
     match eatLitCI (str "4.") s with
     | some s1 =>
       (eatLitCI (str "Word-by-Word Analysis") (eatWS s1)).map fun s2 =>
         eatWS (eatOptColon s2)
     | none => none
   else none)

/-- Leftmost match of `wbaSectionRx`: returns the index of the match start
and the capture. -/
def findWba (prev : Option Char) (idx : Nat) : Str → Option (Nat × Str)
  | [] => (wbaAt prev []).map fun cap => (idx, cap)
  | c :: cs =>
    match wbaAt prev (c :: cs) with
    | some cap => some (idx, cap)
    | none => findWba (some c) (idx + 1) cs

/-- Global replacement of `/\(([^\)\n]+)\)/g` with
`(sanitizeModelTranslitOptionB(inner))`: at each `(`, the greedy inner run of
non-`)`/non-newline characters must be non-empty and be followed by `)`. -/
def parenSanitize : Nat → Str → Str
  | 0, s => s
  | _ + 1, [] => []
  | fuel + 1, c :: cs =>
    if c = '(' then
      let inner := cs.takeWhile fun ch => !(ch = ')' || ch = '\n')
      let rest := cs.dropWhile fun ch => !(ch = ')' || ch = '\n')
      match rest with
      | ')' :: rest2 =>
        if inner ≠ [] then
          '(' :: sanitizeModelTranslitOptionB inner ++ ')' :: parenSanitize fuel rest2
        else c :: parenSanitize fuel cs
      | _ => c :: parenSanitize fuel cs
    else c :: parenSanitize fuel cs

/-- The lookahead of `entryRx`:
`(?=\s+[Greek][GreekCont]*\s*\(|$)`. -/
def entryLook (t : Str) : Bool :=
  t = [] ||
  (let sp := t.takeWhile isJsSpace
   let t1 := t.dropWhile isJsSpace
   sp ≠ [] &&
   (match t1 with
    | c :: cs =>
      isGreekCh c &&
      (match (cs.dropWhile isGreekCont).dropWhile isJsSpace with
       | '(' :: _ => true
       | _ => false)
    | [] => false))

/-- Match one `entryRx` triple at the current position:
`greekWord \s* ( inner ) \s* - \s* gloss` with a lazy `[^.]+?` gloss bounded
by the lookahead; returns `(consumed, greek, inner, gloss)`. -/
def entryAt (s : Str) : Option (Nat × Str × Str × Str) :=
  match s with
  | c :: cs =>
    if isGreekCh c then
      let word := c :: cs.takeWhile isGreekCont
      let s1 := cs.dropWhile isGreekCont
      let s2 := s1.dropWhile isJsSpace
      match s2 with
      | '(' :: s3 =>
        let inner := s3.takeWhile fun ch => !(ch = '(' || ch = ')')
        let s4 := s3.dropWhile fun ch => !(ch = '(' || ch = ')')
        if inner = [] then none
        else
          match s4 with
          | ')' :: s5 =>
            match (s5.dropWhile isJsSpace) with
            | '-' :: s6 =>
              let s7 := s6.dropWhile isJsSpace
              let limit := (s7.takeWhile (fun ch => decide (ch ≠ '.'))).length
              (List.range limit).findSome? fun k =>
                if entryLook (s7.drop (k + 1)) then
                  some (s.length - s7.length + k + 1, word, inner, s7.take (k + 1))
                else none
            | _ => none
          | _ => none
      | _ => none
    else none
  | [] => none

/-- The global `entryRx.exec` loop: find each leftmost match, collect the
capture groups, resume after the match end. -/
def extractEntries : Nat → Str → List (Str × Str × Str)
  | 0, _ => []
  | _ + 1, [] => []
  | fuel + 1, c :: cs =>
    match entryAt (c :: cs) with
    | some (k, word, inner, gloss) =>
      (word, inner, gloss) :: extractEntries fuel ((c :: cs).drop k)
    | none => extractEntries fuel cs

/-- `match[3].trim().replace(/[.,;]+$/, "").replace(/\s+/g, " ")` applied to
a gloss. -/
def cleanGloss (g : Str) : Str :=
  let t := jsTrim g
  let t2 := (t.reverse.dropWhile fun ch => ch = '.' || ch = ',' || ch = ';').reverse
  collapseWS t2

/-- `p.trim().replace(/[.,;]+$/, "")` applied to a `simpleRx` match. -/
def cleanSimple (p : Str) : Str :=
  let t := jsTrim p
  (t.reverse.dropWhile fun ch => ch = '.' || ch = ',' || ch = ';').reverse

/-- Format one extracted triple as `греek (translit) - gloss` with the
sanitized transliteration, as pushed by the source loop. -/
def fmtEntry (e : Str × Str × Str) : Str :=
  e.1 ++ [' ', '('] ++ sanitizeModelTranslitOptionB e.2.1 ++ [')', ' ', '-', ' '] ++
  cleanGloss e.2.2

/-- Match of `simpleRx`
`/([Greek]+[''ʼ']?)\s*\([^)]+\)\s*-\s*[^(]+/gu` at the current position;
returns the length of the whole match. -/
def simpleAt (s : Str) : Option Nat :=
  match s with
  | c :: cs =>
    if isGreekCh c then
      let s1 := cs.dropWhile isGreekCh
      let s2 := match s1 with
                | a :: r => if a = apos || a = '’' || a.toNat = 0x2BC then r else s1
                | [] => s1
      match s2.dropWhile isJsSpace with
      | '(' :: s3 =>
        let inner := s3.takeWhile (· ≠ ')')
        let s4 := s3.dropWhile (· ≠ ')')
        if inner = [] then none
        else
          match s4 with
          | ')' :: s5 =>
            match s5.dropWhile isJsSpace with
            | '-' :: s6 =>
              let s7 := s6.dropWhile isJsSpace
              let tail := s7.takeWhile (· ≠ '(')
              if tail = [] then none
              else some (s.length - s7.length + tail.length)
            | _ => none
          | _ => none
      | _ => none
    else none
  | [] => none

/-- The global `rawBlock.match(simpleRx)` list of matched substrings. -/
def simpleMatches : Nat → Str → List Str
  | 0, _ => []
  | _ + 1, [] => []
  | fuel + 1, c :: cs =>
    match simpleAt (c :: cs) with
    | some k => (c :: cs).take k :: simpleMatches fuel ((c :: cs).drop k)
    | none => simpleMatches fuel cs

/-- The ultimate fallback's first step,
`rawBlock.replace(/([Greek]+)/gu, "\n$1")`: insert a newline before every
run of Greek characters. -/
def insertBreaks : Nat → Str → Str
  | 0, s => s
  | _ + 1, [] => []
  | fuel + 1, c :: cs =>
    if isGreekCh c then
      let run := c :: cs.takeWhile isGreekCh
      '\n' :: run ++ insertBreaks fuel (cs.dropWhile isGreekCh)
    else c :: insertBreaks fuel cs

/-- Split a string on a separator character (`String.prototype.split` with a
single-character string). -/
def splitOnCh (sep : Char) (s : Str) : List Str :=
  match s with
  | [] => [[]]
  | c :: cs =>
    let rest := splitOnCh sep cs
    if c = sep then [] :: rest
    else
      match rest with
      | h :: t => (c :: h) :: t
      | [] => [[c]]

/-- Join with newlines (`Array.prototype.join("\n")`). -/
def joinNL (xs : List Str) : Str :=
  match xs with
  | [] => []
  | [x] => x
  | x :: xs => x ++ '\n' :: joinNL xs

/-- The ultimate fallback:
`rawBlock.replace(…, "\n$1").split("\n").map(s => s.trim()).filter(Boolean)
.join("\n")`. -/
def ultimateFallback (rawBlock : Str) : Str :=
  joinNL (((splitOnCh '\n' (insertBreaks rawBlock.length rawBlock)).map jsTrim).filter
    fun l => decide (l ≠ []))

/-- The `rebuilt` block of the word-by-word re-segmentation: the strict
`entryRx` extraction, else the looser `simpleRx` split, else the ultimate
per-Greek-run split. -/
def rebuiltBlock (rawBlock : Str) : Str :=
  let entries := extractEntries rawBlock.length rawBlock
  if entries ≠ [] then joinNL (entries.map fmtEntry)
  else
    match simpleMatches rawBlock.length rawBlock with
    | p :: ps => joinNL ((p :: ps).map cleanSimple)
    | [] => ultimateFallback rawBlock

/-- The pure text pipeline applied by `getVerseAnalysis` to the generated
interlinear text (`src/src/services/geminiService.ts`, lines 416–503): CRLF
normalization and trim, header normalization, transliteration-section
sanitization, parenthetical sanitization, and the three-tier word-by-word
re-segmentation. -/
def reshapeInterlinear (result : Str) : Str :=
  let t0 := jsTrim (replAllLit false (str "\r\n") (str "\n") result.length result)
  let t1 := replaceFirstBy (hdrMatchAt '1' h1Body) (str "**1. Greek Text:**") t0
  let t2 := replaceFirstBy (hdrMatchAt '2' h2Body) (str "**2. English Transliteration:**") t1
  let t3 := replaceFirstBy (hdrMatchAt '3' h3Body) (str "**3. Smooth English Translation:**") t2
  let t4 := replaceFirstBy (hdrMatchAt '4' h4Body) (str "**4. Word-by-Word Analysis:**") t3
  let t5 := match findSec2 none t4 with
            | some body =>
              if body = [] then t4
              else replaceFirst t4 body ('\n' :: jsTrim (sanitizeModelTranslitOptionB body) ++ ['\n'])
            | none => t4
  let t6 := parenSanitize t5.length t5
  match findWba none 0 t6 with
  | none => t6
  | some (idx, cap) =>
    t6.take idx ++ str "**4. Word-by-Word Analysis:**" ++ '\n' ::
      rebuiltBlock (jsTrim cap)

/-- Lines of a string (split on `\n`). -/
def linesOf (s : Str) : List Str := splitOnCh '\n' s

/-- The suffix of `s` after the first occurrence of `marker`, when present. -/
def afterMarker (marker : Str) : Str → Option Str
  | [] => if marker = [] then some [] else none
  | c :: cs =>
    if marker.isPrefixOf (c :: cs) then some ((c :: cs).drop marker.length)
    else afterMarker marker cs

/-- The `word (translit) - gloss` line pattern of the word-by-word contract:
a non-empty source word, a space, a non-empty parenthesized transliteration,
then ` - ` and a non-empty gloss. -/
def lineIsTriple (l : Str) : Bool :=
  match l with
  | c :: cs =>
    isGreekCh c &&
    (let w := cs.dropWhile isGreekCont
     match w with
     | ' ' :: '(' :: r1 =>
       let inner := r1.takeWhile fun ch => !(ch = ')' || ch = '(')
       let r2 := r1.dropWhile fun ch => !(ch = ')' || ch = '(')
       inner ≠ [] &&
       (match r2 with
        | ')' :: ' ' :: '-' :: ' ' :: g => g ≠ []
        | _ => false)
     | _ => false)
  | [] => false

/-- The concrete generator output used to exercise the re-segmentation: a
well-formed four-section interlinear text whose word-by-word body holds two
triples concatenated on a single line. -/
def reshapeInput : Str :=
  str "**1. Greek Text:**" ++ '\n' :: str "λογος και" ++ '\n' :: '\n' :: str "---" ++
  '\n' :: '\n' :: str "**2. English Transliteration:**" ++ '\n' :: str "logos kai" ++
  '\n' :: '\n' :: str "---" ++ '\n' :: '\n' ::
  str "**3. Smooth English Translation:**" ++ '\n' :: str "word and" ++
  '\n' :: '\n' :: str "---" ++ '\n' :: '\n' ::
  str "**4. Word-by-Word Analysis:**" ++ '\n' ::
  str "λογος (logos) - word και (kai) - and"

/-!
## Theorems
-/

set_option maxRecDepth 1000000
set_option maxHeartbeats 120000000

theorem ws_ne_zwsp (c : Char) (h : isJsSpace c = true) :
    decide (c.toNat ≠ 0x200B) = true := by
  rw [decide_eq_true_eq]
  intro hn
  simp only [isJsSpace, Bool.or_eq_true, Bool.and_eq_true, decide_eq_true_eq] at h
  omega

theorem collapse_ws_true {s : Str} (h : ∀ c ∈ s, isJsSpace c = true) :
    collapseWSAux true s = [] := by
  induction s with
  | nil => rfl
  | cons c cs ih =>
    simp only [collapseWSAux, h c (List.mem_cons_self c cs)]
    exact ih fun d hd => h d (List.mem_cons_of_mem c hd)

theorem collapse_ws_false {s : Str} (hne : s ≠ [])
    (h : ∀ c ∈ s, isJsSpace c = true) : collapseWSAux false s = [' '] := by
  cases s with
  | nil => exact absurd rfl hne
  | cons c cs =>
    simp [collapseWSAux, h c (List.mem_cons_self c cs),
      collapse_ws_true fun d hd => h d (List.mem_cons_of_mem c hd)]

theorem norm_ws_all_space {s : Str} (hne : s ≠ [])
    (h : ∀ c ∈ s, isJsSpace c = true) : normalizeWhitespace s = [] := by
  unfold normalizeWhitespace collapseWS
  rw [List.filter_eq_self.mpr fun c hc => ws_ne_zwsp c (h c hc),
    collapse_ws_false hne h]
  decide

/-- C10: for every non-empty input consisting only of whitespace characters,
`canonicalizeBook` returns `"Genesis"`, the first entry of the canonical
table: the whitespace normalizes to an empty name and the ASCII starts-with
fallback matches every book name against the empty string, returning the
first. -/
theorem canonicalize_whitespace_genesis (s : Str) (hne : s ≠ [])
    (h : ∀ c ∈ s, isJsSpace c = true) : canonicalizeBook s = str "Genesis" := by
  unfold canonicalizeBook
  rw [if_neg hne]
  show (canonicalizeStrategies (normalizeWhitespace s)).getD (normalizeWhitespace s) =
    str "Genesis"
  rw [norm_ws_all_space hne h]
  decide

theorem canonicalize_whitespace_genesis_witness :
    canonicalizeBook (str " ") = str "Genesis" :=
  canonicalize_whitespace_genesis (str " ") (by decide) (by decide)

/-- C1 (amended): `canonicalizeBook` is total by construction (it is a plain
function on strings), and when no lookup strategy matches it returns the
whitespace-normalized input — zero-width characters stripped, whitespace
runs collapsed to single spaces, then trimmed — rather than the merely
trimmed input. -/
theorem canonicalize_total_fallback (raw : Str) (hne : raw ≠ [])
    (h : canonicalizeStrategies (normalizeWhitespace raw) = none) :
    canonicalizeBook raw = normalizeWhitespace raw := by
  unfold canonicalizeBook
  rw [if_neg hne]
  show (canonicalizeStrategies (normalizeWhitespace raw)).getD (normalizeWhitespace raw) =
    normalizeWhitespace raw
  rw [h]
  rfl

theorem canonicalize_total_fallback_witness :
    canonicalizeBook (str "zz  zz") = normalizeWhitespace (str "zz  zz") :=
  canonicalize_total_fallback (str "zz  zz") (by decide) (by decide)

/-- C1 counterexample: on `"zz  zz"` no lookup strategy matches, yet the
result is the whitespace-collapsed `"zz zz"`, not the trimmed input
`"zz  zz"` unchanged — refuting the claim's "returns the trimmed input
unchanged". -/
theorem canonicalize_trimmed_counterexample :
    canonicalizeStrategies (normalizeWhitespace (str "zz  zz")) = none ∧
    canonicalizeBook (str "zz  zz") ≠ jsTrim (str "zz  zz") := by decide

/-- C2: `canonicalizeBook "1 John" = "1 John"` and
`canonicalizeBook "John" = "John"`: the numeral-bearing input resolves to the
distinct canonical book `1 John` and never collapses onto `John`. -/
theorem numeral_disambiguation :
    canonicalizeBook (str "1 John") = str "1 John" ∧
    canonicalizeBook (str "John") = str "John" ∧
    str "1 John" ≠ str "John" := by decide

theorem canonicalize_fix_00 : canonicalizeBook (str "Genesis") = str "Genesis" := by
  decide

theorem canonicalize_fix_01 : canonicalizeBook (str "Exodus") = str "Exodus" := by
  decide

theorem canonicalize_fix_02 : canonicalizeBook (str "Leviticus") = str "Leviticus" := by
  decide

theorem canonicalize_fix_03 : canonicalizeBook (str "Numbers") = str "Numbers" := by
  decide

theorem canonicalize_fix_04 : canonicalizeBook (str "Deuteronomy") = str "Deuteronomy" := by
  decide

theorem canonicalize_fix_05 : canonicalizeBook (str "Joshua") = str "Joshua" := by
  decide

theorem canonicalize_fix_06 : canonicalizeBook (str "Judges") = str "Judges" := by
  decide

theorem canonicalize_fix_07 : canonicalizeBook (str "Ruth") = str "Ruth" := by
  decide

theorem canonicalize_fix_08 : canonicalizeBook (str "1 Samuel") = str "1 Samuel" := by
  decide

theorem canonicalize_fix_09 : canonicalizeBook (str "2 Samuel") = str "2 Samuel" := by
  decide

theorem canonicalize_fix_10 : canonicalizeBook (str "1 Kings") = str "1 Kings" := by
  decide

theorem canonicalize_fix_11 : canonicalizeBook (str "2 Kings") = str "2 Kings" := by
  decide

theorem canonicalize_fix_12 : canonicalizeBook (str "1 Chronicles") = str "1 Chronicles" := by
  decide

theorem canonicalize_fix_13 : canonicalizeBook (str "2 Chronicles") = str "2 Chronicles" := by
  decide

theorem canonicalize_fix_14 : canonicalizeBook (str "Ezra") = str "Ezra" := by
  decide

theorem canonicalize_fix_15 : canonicalizeBook (str "Nehemiah") = str "Nehemiah" := by
  decide

theorem canonicalize_fix_16 : canonicalizeBook (str "Esther") = str "Esther" := by
  decide

theorem canonicalize_fix_17 : canonicalizeBook (str "Job") = str "Job" := by
  decide

theorem canonicalize_fix_18 : canonicalizeBook (str "Psalms") = str "Psalms" := by
  decide

theorem canonicalize_fix_19 : canonicalizeBook (str "Proverbs") = str "Proverbs" := by
  decide

theorem canonicalize_fix_20 : canonicalizeBook (str "Ecclesiastes") = str "Ecclesiastes" := by
  decide

theorem canonicalize_fix_21 : canonicalizeBook (str "Song of Solomon") = str "Song of Solomon" := by
  decide

theorem canonicalize_fix_22 : canonicalizeBook (str "Isaiah") = str "Isaiah" := by
  decide

theorem canonicalize_fix_23 : canonicalizeBook (str "Jeremiah") = str "Jeremiah" := by
  decide

theorem canonicalize_fix_24 : canonicalizeBook (str "Lamentations") = str "Lamentations" := by
  decide

theorem canonicalize_fix_25 : canonicalizeBook (str "Ezekiel") = str "Ezekiel" := by
  decide

theorem canonicalize_fix_26 : canonicalizeBook (str "Daniel") = str "Daniel" := by
  decide

theorem canonicalize_fix_27 : canonicalizeBook (str "Hosea") = str "Hosea" := by
  decide

theorem canonicalize_fix_28 : canonicalizeBook (str "Joel") = str "Joel" := by
  decide

theorem canonicalize_fix_29 : canonicalizeBook (str "Amos") = str "Amos" := by
  decide

theorem canonicalize_fix_30 : canonicalizeBook (str "Obadiah") = str "Obadiah" := by
  decide

theorem canonicalize_fix_31 : canonicalizeBook (str "Jonah") = str "Jonah" := by
  decide

theorem canonicalize_fix_32 : canonicalizeBook (str "Micah") = str "Micah" := by
  decide

theorem canonicalize_fix_33 : canonicalizeBook (str "Nahum") = str "Nahum" := by
  decide

theorem canonicalize_fix_34 : canonicalizeBook (str "Habakkuk") = str "Habakkuk" := by
  decide

theorem canonicalize_fix_35 : canonicalizeBook (str "Zephaniah") = str "Zephaniah" := by
  decide

theorem canonicalize_fix_36 : canonicalizeBook (str "Haggai") = str "Haggai" := by
  decide

theorem canonicalize_fix_37 : canonicalizeBook (str "Zechariah") = str "Zechariah" := by
  decide

theorem canonicalize_fix_38 : canonicalizeBook (str "Malachi") = str "Malachi" := by
  decide

theorem canonicalize_fix_39 : canonicalizeBook (str "Matthew") = str "Matthew" := by
  decide

theorem canonicalize_fix_40 : canonicalizeBook (str "Mark") = str "Mark" := by
  decide

theorem canonicalize_fix_41 : canonicalizeBook (str "Luke") = str "Luke" := by
  decide

theorem canonicalize_fix_42 : canonicalizeBook (str "John") = str "John" := by
  decide

theorem canonicalize_fix_43 : canonicalizeBook (str "Acts") = str "Acts" := by
  decide

theorem canonicalize_fix_44 : canonicalizeBook (str "Romans") = str "Romans" := by
  decide

theorem canonicalize_fix_45 : canonicalizeBook (str "1 Corinthians") = str "1 Corinthians" := by
  decide

theorem canonicalize_fix_46 : canonicalizeBook (str "2 Corinthians") = str "2 Corinthians" := by
  decide

theorem canonicalize_fix_47 : canonicalizeBook (str "Galatians") = str "Galatians" := by
  decide

theorem canonicalize_fix_48 : canonicalizeBook (str "Ephesians") = str "Ephesians" := by
  decide

theorem canonicalize_fix_49 : canonicalizeBook (str "Philippians") = str "Philippians" := by
  decide

theorem canonicalize_fix_50 : canonicalizeBook (str "Colossians") = str "Colossians" := by
  decide

theorem canonicalize_fix_51 : canonicalizeBook (str "1 Thessalonians") = str "1 Thessalonians" := by
  decide

theorem canonicalize_fix_52 : canonicalizeBook (str "2 Thessalonians") = str "2 Thessalonians" := by
  decide

theorem canonicalize_fix_53 : canonicalizeBook (str "1 Timothy") = str "1 Timothy" := by
  decide

theorem canonicalize_fix_54 : canonicalizeBook (str "2 Timothy") = str "2 Timothy" := by
  decide

theorem canonicalize_fix_55 : canonicalizeBook (str "Titus") = str "Titus" := by
  decide

theorem canonicalize_fix_56 : canonicalizeBook (str "Philemon") = str "Philemon" := by
  decide

theorem canonicalize_fix_57 : canonicalizeBook (str "Hebrews") = str "Hebrews" := by
  decide

theorem canonicalize_fix_58 : canonicalizeBook (str "James") = str "James" := by
  decide

theorem canonicalize_fix_59 : canonicalizeBook (str "1 Peter") = str "1 Peter" := by
  decide

theorem canonicalize_fix_60 : canonicalizeBook (str "2 Peter") = str "2 Peter" := by
  decide

theorem canonicalize_fix_61 : canonicalizeBook (str "1 John") = str "1 John" := by
  decide

theorem canonicalize_fix_62 : canonicalizeBook (str "2 John") = str "2 John" := by
  decide

theorem canonicalize_fix_63 : canonicalizeBook (str "3 John") = str "3 John" := by
  decide

theorem canonicalize_fix_64 : canonicalizeBook (str "Jude") = str "Jude" := by
  decide

theorem canonicalize_fix_65 : canonicalizeBook (str "Revelation") = str "Revelation" := by
  decide

/-- `canonicalizeBook` is the identity on each of the 66 canonical names,
assembled from the per-book evaluations above. -/
theorem canonicalize_books_fixed :
    ∀ n ∈ BIBLE_META.map (·.name), canonicalizeBook n = n := by
  have hlist : BIBLE_META.map (·.name) =
      [str "Genesis", str "Exodus", str "Leviticus", str "Numbers", str "Deuteronomy", str "Joshua", str "Judges", str "Ruth", str "1 Samuel", str "2 Samuel", str "1 Kings", str "2 Kings", str "1 Chronicles", str "2 Chronicles", str "Ezra", str "Nehemiah", str "Esther", str "Job", str "Psalms", str "Proverbs", str "Ecclesiastes", str "Song of Solomon", str "Isaiah", str "Jeremiah", str "Lamentations", str "Ezekiel", str "Daniel", str "Hosea", str "Joel", str "Amos", str "Obadiah", str "Jonah", str "Micah", str "Nahum", str "Habakkuk", str "Zephaniah", str "Haggai", str "Zechariah", str "Malachi", str "Matthew", str "Mark", str "Luke", str "John", str "Acts", str "Romans", str "1 Corinthians", str "2 Corinthians", str "Galatians", str "Ephesians", str "Philippians", str "Colossians", str "1 Thessalonians", str "2 Thessalonians", str "1 Timothy", str "2 Timothy", str "Titus", str "Philemon", str "Hebrews", str "James", str "1 Peter", str "2 Peter", str "1 John", str "2 John", str "3 John", str "Jude", str "Revelation"] := by rfl
  rw [hlist]
  intro n hn
  rcases List.mem_cons.mp hn with rfl | hn
  · exact canonicalize_fix_00
  rcases List.mem_cons.mp hn with rfl | hn
  · exact canonicalize_fix_01
  rcases List.mem_cons.mp hn with rfl | hn
  · exact canonicalize_fix_02
  rcases List.mem_cons.mp hn with rfl | hn
  · exact canonicalize_fix_03
  rcases List.mem_cons.mp hn with rfl | hn
  · exact canonicalize_fix_04
  rcases List.mem_cons.mp hn with rfl | hn
  · exact canonicalize_fix_05
  rcases List.mem_cons.mp hn with rfl | hn
  · exact canonicalize_fix_06
  rcases List.mem_cons.mp hn with rfl | hn
  · exact canonicalize_fix_07
  rcases List.mem_cons.mp hn with rfl | hn
  · exact canonicalize_fix_08
  rcases List.mem_cons.mp hn with rfl | hn
  · exact canonicalize_fix_09
  rcases List.mem_cons.mp hn with rfl | hn
  · exact canonicalize_fix_10
  rcases List.mem_cons.mp hn with rfl | hn
  · exact canonicalize_fix_11
  rcases List.mem_cons.mp hn with rfl | hn
  · exact canonicalize_fix_12
  rcases List.mem_cons.mp hn with rfl | hn
  · exact canonicalize_fix_13
  rcases List.mem_cons.mp hn with rfl | hn
  · exact canonicalize_fix_14
  rcases List.mem_cons.mp hn with rfl | hn
  · exact canonicalize_fix_15
  rcases List.mem_cons.mp hn with rfl | hn
  · exact canonicalize_fix_16
  rcases List.mem_cons.mp hn with rfl | hn
  · exact canonicalize_fix_17
  rcases List.mem_cons.mp hn with rfl | hn
  · exact canonicalize_fix_18
  rcases List.mem_cons.mp hn with rfl | hn
  · exact canonicalize_fix_19
  rcases List.mem_cons.mp hn with rfl | hn
  · exact canonicalize_fix_20
  rcases List.mem_cons.mp hn with rfl | hn
  · exact canonicalize_fix_21
  rcases List.mem_cons.mp hn with rfl | hn
  · exact canonicalize_fix_22
  rcases List.mem_cons.mp hn with rfl | hn
  · exact canonicalize_fix_23
  rcases List.mem_cons.mp hn with rfl | hn
  · exact canonicalize_fix_24
  rcases List.mem_cons.mp hn with rfl | hn
  · exact canonicalize_fix_25
  rcases List.mem_cons.mp hn with rfl | hn
  · exact canonicalize_fix_26
  rcases List.mem_cons.mp hn with rfl | hn
  · exact canonicalize_fix_27
  rcases List.mem_cons.mp hn with rfl | hn
  · exact canonicalize_fix_28
  rcases List.mem_cons.mp hn with rfl | hn
  · exact canonicalize_fix_29
  rcases List.mem_cons.mp hn with rfl | hn
  · exact canonicalize_fix_30
  rcases List.mem_cons.mp hn with rfl | hn
  · exact canonicalize_fix_31
  rcases List.mem_cons.mp hn with rfl | hn
  · exact canonicalize_fix_32
  rcases List.mem_cons.mp hn with rfl | hn
  · exact canonicalize_fix_33
  rcases List.mem_cons.mp hn with rfl | hn
  · exact canonicalize_fix_34
  rcases List.mem_cons.mp hn with rfl | hn
  · exact canonicalize_fix_35
  rcases List.mem_cons.mp hn with rfl | hn
  · exact canonicalize_fix_36
  rcases List.mem_cons.mp hn with rfl | hn
  · exact canonicalize_fix_37
  rcases List.mem_cons.mp hn with rfl | hn
  · exact canonicalize_fix_38
  rcases List.mem_cons.mp hn with rfl | hn
  · exact canonicalize_fix_39
  rcases List.mem_cons.mp hn with rfl | hn
  · exact canonicalize_fix_40
  rcases List.mem_cons.mp hn with rfl | hn
  · exact canonicalize_fix_41
  rcases List.mem_cons.mp hn with rfl | hn
  · exact canonicalize_fix_42
  rcases List.mem_cons.mp hn with rfl | hn
  · exact canonicalize_fix_43
  rcases List.mem_cons.mp hn with rfl | hn
  · exact canonicalize_fix_44
  rcases List.mem_cons.mp hn with rfl | hn
  · exact canonicalize_fix_45
  rcases List.mem_cons.mp hn with rfl | hn
  · exact canonicalize_fix_46
  rcases List.mem_cons.mp hn with rfl | hn
  · exact canonicalize_fix_47
  rcases List.mem_cons.mp hn with rfl | hn
  · exact canonicalize_fix_48
  rcases List.mem_cons.mp hn with rfl | hn
  · exact canonicalize_fix_49
  rcases List.mem_cons.mp hn with rfl | hn
  · exact canonicalize_fix_50
  rcases List.mem_cons.mp hn with rfl | hn
  · exact canonicalize_fix_51
  rcases List.mem_cons.mp hn with rfl | hn
  · exact canonicalize_fix_52
  rcases List.mem_cons.mp hn with rfl | hn
  · exact canonicalize_fix_53
  rcases List.mem_cons.mp hn with rfl | hn
  · exact canonicalize_fix_54
  rcases List.mem_cons.mp hn with rfl | hn
  · exact canonicalize_fix_55
  rcases List.mem_cons.mp hn with rfl | hn
  · exact canonicalize_fix_56
  rcases List.mem_cons.mp hn with rfl | hn
  · exact canonicalize_fix_57
  rcases List.mem_cons.mp hn with rfl | hn
  · exact canonicalize_fix_58
  rcases List.mem_cons.mp hn with rfl | hn
  · exact canonicalize_fix_59
  rcases List.mem_cons.mp hn with rfl | hn
  · exact canonicalize_fix_60
  rcases List.mem_cons.mp hn with rfl | hn
  · exact canonicalize_fix_61
  rcases List.mem_cons.mp hn with rfl | hn
  · exact canonicalize_fix_62
  rcases List.mem_cons.mp hn with rfl | hn
  · exact canonicalize_fix_63
  rcases List.mem_cons.mp hn with rfl | hn
  · exact canonicalize_fix_64
  rcases List.mem_cons.mp hn with rfl | hn
  · exact canonicalize_fix_65
  exact absurd hn (List.not_mem_nil n)

/-- C7: `canonicalizeBook` is idempotent on the canonical forms: for every
name of the 66-book canonical table,
`canonicalizeBook (canonicalizeBook x) = canonicalizeBook x`. -/
theorem canonicalize_idempotent :
    ∀ n ∈ BIBLE_META.map (·.name),
      canonicalizeBook (canonicalizeBook n) = canonicalizeBook n := by
  intro n hn
  rw [canonicalize_books_fixed n hn]
  exact canonicalize_books_fixed n hn

theorem canonicalize_idempotent_witness :
    canonicalizeBook (canonicalizeBook (str "1 Timothy")) =
      canonicalizeBook (str "1 Timothy") :=
  canonicalize_idempotent (str "1 Timothy") (by decide)

/-- C4 (amended): the parser normalizes only the book portion of each
segment (via `normalizeTeluguReference`); Telugu digits in the
chapter/verse positions are never converted, so a reference written with
Telugu numerals yields no parse while its ASCII-digit counterpart parses. -/
theorem telugu_digit_reference_behavior :
    parseReferencesFromString (str "యోహాను 3:16") =
      [⟨str "John", 3, 16, none⟩] ∧
    parseReferencesFromString (str "యోహాను ౩:౧౬") = [] := by decide

/-- C4 counterexample: the same reference written with Telugu chapter/verse
numerals does not parse to the same `ParsedReference` as the ASCII-digit
form — the Telugu-digit form parses to nothing at all. -/
theorem telugu_digit_claim_counterexample :
    parseReferencesFromString (str "యోహాను ౩:౧౬") ≠
      parseReferencesFromString (str "యోహాను 3:16") := by decide

/-- C8: on a generated interlinear text whose Word-by-Word body holds two
`word (translit) - gloss` triples concatenated on one line, the reshaper
emits exactly two lines after the Word-by-Word header, one triple per line,
each matching the `word (translit) - gloss` pattern. -/
theorem reshape_two_triples :
    (afterMarker (str "**4. Word-by-Word Analysis:**" ++ ['\n'])
        (reshapeInterlinear reshapeInput)).map linesOf =
      some [str "λογος (logos) - word", str "και (kai) - and"] ∧
    lineIsTriple (str "λογος (logos) - word") = true ∧
    lineIsTriple (str "και (kai) - and") = true := by decide

theorem cls7_not_space : ∀ c ∈ cls7, isJsSpace c = false := by decide

theorem wordsStartOk_finalCarrierPass (s : Str) :
    ∀ bol, wordsStartOk bol (finalCarrierPass bol s) = true := by
  induction s with
  | nil => intro bol; rfl
  | cons c cs ih =>
    intro bol
    by_cases hc : (bol && decide (c ∈ cls7)) = true
    · simp only [finalCarrierPass, hc, if_true]
      have h7 : decide (c ∈ cls7) = true := by
        cases bol
        · simp at hc
        · simpa using hc
      have hs : isJsSpace c = false :=
        cls7_not_space c (by simpa using h7)
      simp [wordsStartOk, hs, ih false]
      exact ⟨Or.inr (by decide), Or.inl (by decide)⟩
    · simp only [finalCarrierPass, hc, if_false]
      have : (bol && decide (c ∈ cls7)) = false := by
        simpa using hc
      simp [wordsStartOk, this, ih (isJsSpace c)]

/-- C9 (amended): the transliterator's final pass guards word-initial
positions only against the seven vowel signs of its class
`[ాీూెొైౌ]`: for every input, no word of the output begins with one
of those seven signs.  (The signs `ి` U+0C3F and `ు` U+0C41 are not in the
class, so words may still begin with them — see the counterexample.) -/
theorem transliterate_word_initial_guard (input : Str) :
    wordsStartOk true (transliterateLatinToTelugu input) = true := by
  unfold transliterateLatinToTelugu
  by_cases h : input = []
  · rw [if_pos h]; rfl
  · rw [if_neg h]
    exact wordsStartOk_finalCarrierPass _ true

/-- C9 counterexample: the ASCII word `"i"` begins with a vowel, yet the
transliterated output is the single bare dependent vowel sign `ి` (U+0C3F),
a word beginning with a Telugu vowel-sign code point. -/
theorem transliterate_vowel_sign_counterexample :
    transliterateLatinToTelugu (str "i") = [Char.ofNat 0x0C3F] ∧
    isTeluguVowelSign (Char.ofNat 0x0C3F) = true := by decide

theorem fbm1_shape {q : Str} {r : BookMetadataR}
    (h : findBookMetadata q = some r) : ∃ b ∈ BIBLE_META, r = toMetaR b := by
  unfold findBookMetadata at h
  simp only [] at h
  split at h
  · exact absurd h (by simp)
  · split at h
    case _ b heq =>
      exact ⟨b, List.mem_of_find?_eq_some heq, (Option.some.inj h).symm⟩
    case _ =>
      split at h
      case _ b heq =>
        exact ⟨b, List.mem_of_find?_eq_some heq, (Option.some.inj h).symm⟩
      case _ =>
        split at h
        case _ ab hab =>
          split at h
          case _ b heq =>
            exact ⟨b, List.mem_of_find?_eq_some heq, (Option.some.inj h).symm⟩
          case _ => exact absurd h (by simp)
        case _ => exact absurd h (by simp)

theorem fbm2_shape {q : Str} {r : BookMetadataR}
    (h : findBookMetadataV2 q = some r) : ∃ b ∈ BIBLE_META, r = toMetaR b := by
  unfold findBookMetadataV2 at h
  simp only [] at h
  split at h
  case _ b heq =>
    exact ⟨b, List.mem_of_find?_eq_some heq, (Option.some.inj h).symm⟩
  case _ =>
    split at h
    case _ b heq =>
      rcases Option.bind_eq_some.mp heq with ⟨ab, _, hfind⟩
      exact ⟨b, List.mem_of_find?_eq_some hfind, (Option.some.inj h).symm⟩
    case _ =>
      split at h
      case _ b heq =>
        rcases List.exists_of_findSome?_eq_some heq with ⟨p, _, hp⟩
        have hfind : BIBLE_META.find? (fun b2 => decide (b2.name = p.2)) = some b := by
          by_cases hst : strStarts (lowerStr p.1) (lowerStr (jsTrim q)) = true
          · simpa [hst] using hp
          · simp [Bool.eq_false_iff.mpr hst] at hp
        exact ⟨b, List.mem_of_find?_eq_some hfind, (Option.some.inj h).symm⟩
      case _ =>
        split at h
        case _ b heq =>
          exact ⟨b, List.mem_of_find?_eq_some heq, (Option.some.inj h).symm⟩
        case _ => exact absurd h (by simp)

/-- C6 (amended): neither implementation of `findBookMetadata` ever sets
`wasFuzzy`: every returned `BookMetadata` record leaves the flag absent
(`none`), including resolutions through the partial/starts-with fallbacks, so
consumers cannot distinguish fuzzy matches. -/
theorem findBookMetadata_no_wasFuzzy :
    (∀ q r, findBookMetadata q = some r → r.wasFuzzy = none) ∧
    (∀ q r, findBookMetadataV2 q = some r → r.wasFuzzy = none) := by
  constructor <;> intro q r h
  · obtain ⟨b, _, rfl⟩ := fbm1_shape h; rfl
  · obtain ⟨b, _, rfl⟩ := fbm2_shape h; rfl

theorem findBookMetadata_no_wasFuzzy_witness :
    (⟨str "Genesis", 50, none⟩ : BookMetadataR).wasFuzzy = none :=
  findBookMetadata_no_wasFuzzy.2 (str "Gene") ⟨str "Genesis", 50, none⟩
    (by decide)

/-- C6 counterexample: the query `"Gene"` is no exact key (the exact-name
lookup misses) and resolves through the starts-with fallback, yet the
returned record carries no `wasFuzzy` flag at all (`none`), not
`wasFuzzy = true`. -/
theorem findBookMetadata_wasFuzzy_counterexample :
    findBookMetadataV2 (str "Gene") = some ⟨str "Genesis", 50, none⟩ ∧
    (BIBLE_META.find? fun b =>
      decide (lowerStr b.name = lowerStr (jsTrim (str "Gene")))) = none := by
  decide

theorem meta_chapters : ∀ b ∈ BIBLE_META, chaptersOf b.name = some b.chapters := by
  decide

theorem segParse_invariants {seg : Str} {r : ParsedReference}
    (h : segParse seg = some r) :
    1 ≤ r.chapter ∧ (∃ cc, chaptersOf r.book = some cc ∧ r.chapter ≤ cc) ∧
    ∀ e, r.endVerse = some e → r.startVerse ≤ e := by
  unfold segParse at h
  simp only [] at h
  split at h
  · exact absurd h (by simp)
  · split at h
    · exact absurd h (by simp)
    case _ m1 ch sv ev _ =>
      split at h
      · exact absurd h (by simp)
      case _ bm hbm =>
        split at h
        · exact absurd h (by simp)
        case _ h1 =>
          split at h
          · exact absurd h (by simp)
          case _ h2 =>
            obtain ⟨b, hbmem, hbR⟩ := fbm1_shape hbm
            have hcc : chaptersOf bm.name = some bm.chapters := by
              rw [hbR]; exact meta_chapters b hbmem
            split at h
            case _ e =>
              split at h
              · exact absurd h (by simp)
              case _ h3 =>
                obtain rfl := Option.some.inj h
                dsimp only
                refine ⟨by omega, ⟨bm.chapters, hcc, by omega⟩, ?_⟩
                intro e2 he2
                obtain rfl := Option.some.inj he2
                omega
            case _ =>
              obtain rfl := Option.some.inj h
              dsimp only
              exact ⟨by omega, ⟨bm.chapters, hcc, by omega⟩, by simp⟩

/-- C5 (amended): every `ParsedReference` produced by the parser has its
chapter within `[1, chapterCount]` of the resolved book and, when an end
verse is present, `startVerse ≤ endVerse`; the invariant `startVerse ≥ 1` is
NOT enforced — the parser accepts a zero start verse (see the
counterexample). -/
theorem parse_ref_invariants :
    ∀ input r, r ∈ parseReferencesFromString input →
      1 ≤ r.chapter ∧ (∃ cc, chaptersOf r.book = some cc ∧ r.chapter ≤ cc) ∧
      ∀ e, r.endVerse = some e → r.startVerse ≤ e := by
  intro input r hmem
  unfold parseReferencesFromString at hmem
  obtain ⟨seg, _, hseg⟩ := List.mem_filterMap.mp hmem
  exact segParse_invariants hseg

theorem parse_ref_invariants_witness :
    1 ≤ (⟨str "Genesis", 1, 1, none⟩ : ParsedReference).chapter ∧
    (∃ cc, chaptersOf (⟨str "Genesis", 1, 1, none⟩ : ParsedReference).book = some cc ∧
      (⟨str "Genesis", 1, 1, none⟩ : ParsedReference).chapter ≤ cc) ∧
    ∀ e, (⟨str "Genesis", 1, 1, none⟩ : ParsedReference).endVerse = some e →
      (⟨str "Genesis", 1, 1, none⟩ : ParsedReference).startVerse ≤ e :=
  parse_ref_invariants (str "Genesis 1:1") ⟨str "Genesis", 1, 1, none⟩
    (by decide)

/-- C5 counterexample: the input `"John 3:0"` passes the parser's checks and
yields a `ParsedReference` whose `startVerse` is `0`, refuting the claimed
`startVerse ≥ 1` invariant. -/
theorem parse_startverse_zero_counterexample :
    parseReferencesFromString (str "John 3:0") = [⟨str "John", 3, 0, none⟩] ∧
    (⟨str "John", 3, 0, none⟩ : ParsedReference).startVerse = 0 := by decide

/-- C3: among segments whose normalized text matches the reference grammar,
the parser drops the segment (produces no `ParsedReference`) exactly when
the book fails to resolve, the chapter lies outside `[1, chapterCount]` of
the resolved book, or `endVerse < startVerse` when both are given; in
particular `"Genesis 1:1"` parses to
`{book := "Genesis", chapter := 1, startVerse := 1, endVerse := none}` while
`"Genesis 51:1"` parses to nothing, Genesis having 50 chapters. -/
theorem parse_reject_conditions :
    (∀ s m1 ch sv ev,
      refRegexMatch (normalizeTeluguReference (jsTrim s)) = some (m1, ch, sv, ev) →
      (segParse s = none ↔
        findBookMetadata (jsTrim m1) = none ∨
        (∃ bm, findBookMetadata (jsTrim m1) = some bm ∧
          (ch < 1 ∨ bm.chapters < ch)) ∨
        (∃ e, ev = some e ∧ e < sv))) ∧
    parseReferencesFromString (str "Genesis 1:1") =
      [⟨str "Genesis", 1, 1, none⟩] ∧
    parseReferencesFromString (str "Genesis 51:1") = [] := by
  refine ⟨?_, by decide, by decide⟩
  intro s m1 ch sv ev h
  have htne : jsTrim s ≠ [] := by
    intro he
    rw [he] at h
    simp [normalizeTeluguReference, refRegexMatch] at h
  unfold segParse
  simp only []
  rw [if_neg htne, h]
  cases hf : findBookMetadata (jsTrim m1) with
  | none => simp [hf]
  | some bm =>
    simp only [Option.some.injEq, hf, reduceCtorEq, false_or]
    by_cases h1 : ch < 1
    · simp [h1]
    · rw [if_neg h1]
      by_cases h2 : bm.chapters < ch
      · simp [h2, if_pos h2]
      · rw [if_neg h2]
        cases ev with
        | none =>
          dsimp only
          simp only [reduceCtorEq, false_and, exists_false, or_false]
          constructor
          · intro hcontra; exact absurd hcontra (by simp)
          · rintro ⟨bm2, hbm2, hor⟩
            obtain rfl := hbm2
            omega
        | some e =>
          dsimp only
          by_cases h3 : e < sv
          · simp [h3]
          · rw [if_neg h3]
            constructor
            · intro hcontra; exact absurd hcontra (by simp)
            · rintro (⟨bm2, hbm2, hor⟩ | ⟨e2, he2, hlt⟩)
              · obtain rfl := hbm2
                omega
              · obtain rfl := Option.some.inj he2
                omega

theorem parse_reject_conditions_witness :
    segParse (str "Genesis 51:1") = none ↔
      findBookMetadata (jsTrim (str "Genesis")) = none ∨
      (∃ bm, findBookMetadata (jsTrim (str "Genesis")) = some bm ∧
        (51 < 1 ∨ bm.chapters < 51)) ∨
      (∃ e, (none : Option Nat) = some e ∧ e < 1) :=
  parse_reject_conditions.1 (str "Genesis 51:1") (str "Genesis") 51 1 none
    (by decide)
